import Mathlib

/-!
# Verification development for the `cosmic-backend` artificial-life simulator

A shallow embedding, in Lean 4, of the core algorithms of the Python package
`src/cosmic`: generic objects with composable properties (`objects.py`,
`properties.py`), the rule-based interaction engine (`interactions.py`), the
discovery detector (`discovery_system.py`), the evolvable neural brains and
genetic algorithm (`brain.py`, `evolution.py`), and the tick-based grid world
with its organisms (`cells.py`, `world.py`).

Modelling conventions:
* Python `float` is modelled as an exact rational (`ℚ`).  All rational
  arithmetic in the embedding goes through the `mkRat`-based wrappers
  `qAdd`, `qSub`, `qMul`, `qDiv` below so that concrete runs reduce inside
  the kernel; the lemmas `qAdd_eq`, `qSub_eq`, `qMul_eq`, `qDiv_eq` identify
  them with the field operations of `ℚ` for the general theorems.
* Python `int` is `ℤ` (or `ℕ` for values that are provably non-negative
  counters in the source, such as ticks, ages and cooldowns).
* Python object identity (`uuid4` ids for `UniverseObject`, `id(obj)` /
  default `__eq__` for cells and brains) is modelled by an explicit numeric
  identity field; fresh identities are drawn from an allocation counter.
* Calls to the `random` module are parametrised by explicit oracle records:
  each `random.random()`, `random.choice(...)`, `random.sample(...)` or
  `random.shuffle(...)` outcome becomes an oracle field, consumed exactly
  where the source consumes the draw.  The neural network's
  `decide_action` (a floating-point forward pass followed by argmax) is
  likewise supplied as an oracle value.
* Mutation of shared Python objects is modelled by threading an explicit
  heap (for cells) and by returning updated values (for objects, engine
  state and detector state).
-/

namespace Cosmic

/-! ## Kernel-computable rational arithmetic

`Rat.add` and friends do not reduce inside the kernel, but `mkRat` does.
The whole embedding therefore uses the following wrappers; they are proved
equal to the field operations of `ℚ` just below. -/

def qAdd (a b : ℚ) : ℚ := mkRat (a.num * b.den + b.num * a.den) (a.den * b.den)

def qSub (a b : ℚ) : ℚ := mkRat (a.num * b.den - b.num * a.den) (a.den * b.den)

def qMul (a b : ℚ) : ℚ := mkRat (a.num * b.num) (a.den * b.den)

def qDiv (a b : ℚ) : ℚ := mkRat (a.num * b.den * (if b.num < 0 then -1 else 1)) (a.den * b.num.natAbs)

/-- Python `int(x)` on a float: truncation toward zero. -/
def pyInt (q : ℚ) : ℤ := if 0 ≤ q then ⌊q⌋ else -⌊-q⌋

/-- Python `str.lower` on an ASCII character. -/
def lowerChar (c : Char) : Char :=
  if 65 ≤ c.toNat ∧ c.toNat ≤ 90 then Char.ofNat (c.toNat + 32) else c

/-- Python `str.lower` (the source only ever lowercases ASCII action names). -/
def pyLower (s : String) : String := String.mk (s.data.map lowerChar)

/-- Code-point lexicographic comparison of characters lists, as used by
Python string `<`. -/
def lexLtChars : List Char → List Char → Bool
  | [], [] => false
  | [], _ :: _ => true
  | _ :: _, [] => false
  | a :: as, b :: bs => if a < b then true else if b < a then false else lexLtChars as bs

/-- Python string `<` (code-point lexicographic). -/
def strLt (a b : String) : Bool := lexLtChars a.data b.data

/-- Insert into a sorted list, keeping earlier-inserted equal elements first
(auxiliary for the stable sort below). -/
def insSorted (le : α → α → Bool) (a : α) : List α → List α
  | [] => [a]
  | b :: bs => if le a b then a :: b :: bs else b :: insSorted le a bs

/-- Stable insertion sort.  Python's `sorted` is a stable sort, and the output
of a stable sort under a total preorder is unique, so this is observationally
the same function as `sorted(..., key=...)`. -/
def pySorted (le : α → α → Bool) : List α → List α
  | [] => []
  | x :: xs => insSorted le x (pySorted le xs)

/-- Python `min` of a non-empty list (`0` for the empty list, unused). -/
def pyMin : List ℚ → ℚ
  | [] => 0
  | x :: xs => xs.foldl min x

/-- Python `max` of a non-empty list (`0` for the empty list, unused). -/
def pyMax : List ℚ → ℚ
  | [] => 0
  | x :: xs => xs.foldl max x

/-! ## `properties.py`: property types, templates and the global registry -/

/-- `PropertyType` enum. -/
inductive PropertyType where
  | physical | thermal | chemical | biological | energy | state
deriving DecidableEq

/-- `PropertyValue` dataclass: a property instance carried by an object. -/
structure PropertyValue where
  name : String
  property_type : PropertyType
  intensity : ℚ := 1
  is_permanent : Bool := true
  description : String := ""
deriving DecidableEq

/-- The `Property` class as stored in `PropertyRegistry.properties` (its
`interactions` dict is never consulted by the interaction engine or any code
under verification, so it is not carried here). -/
structure PropertyTemplate where
  name : String
  property_type : PropertyType
  intensity : ℚ := 1
  is_permanent : Bool := true
  description : String := ""
deriving DecidableEq

/-- One entry of `PropertyRegistry._initialize_basic_properties`
(`register_property` with default intensity 1 and permanence flag). -/
def regEntry (name : String) (t : PropertyType) (descr : String)
    (is_perm : Bool := true) : PropertyTemplate :=
  { name := name, property_type := t, intensity := 1,
    is_permanent := is_perm, description := descr }

/-- `PROPERTY_REGISTRY.properties` after `_initialize_basic_properties`,
in registration order. -/
def property_registry : List PropertyTemplate :=
  [ regEntry "es_duro" .physical "Resistant to breaking",
    regEntry "es_fragil" .physical "Easily broken or damaged",
    regEntry "es_cortante" .physical "Can cut other materials",
    regEntry "es_puntiagudo" .physical "Has a sharp point",
    regEntry "es_pesado" .physical "Has significant mass",
    regEntry "es_liviano" .physical "Has little mass",
    regEntry "es_flexible" .physical "Can bend without breaking",
    regEntry "es_elastico" .physical "Returns to original shape",
    regEntry "es_viscoso" .physical "Thick, sticky consistency",
    regEntry "es_cristalino" .physical "Has ordered crystalline structure",
    regEntry "es_caliente" .thermal "Generates or retains heat",
    regEntry "es_frio" .thermal "Absorbs heat or is cold",
    regEntry "es_inflamable" .thermal "Can catch fire",
    regEntry "retiene_calor" .thermal "Stores thermal energy well",
    regEntry "conduce_calor" .thermal "Transfers heat efficiently",
    regEntry "es_incombustible" .thermal "Cannot be burned",
    regEntry "es_acido" .chemical "Corrosive acidic substance",
    regEntry "es_alcalino" .chemical "Basic/alkaline substance",
    regEntry "es_toxico" .chemical "Harmful to living things",
    regEntry "es_reactivo" .chemical "Reacts easily with other substances",
    regEntry "es_estable" .chemical "Resists chemical change",
    regEntry "es_catalizador" .chemical "Accelerates chemical reactions",
    regEntry "es_explosivo" .chemical "Can explode under conditions",
    regEntry "es_solvente" .chemical "Dissolves other substances",
    regEntry "es_organico" .biological "Made of living/once-living matter",
    regEntry "es_vivo" .biological "Currently alive and active",
    regEntry "es_nutritivo" .biological "Provides nourishment",
    regEntry "es_venenoso" .biological "Toxic when consumed",
    regEntry "es_curativo" .biological "Has healing properties",
    regEntry "es_regenerativo" .biological "Can regrow or repair itself",
    regEntry "es_fermentable" .biological "Can undergo fermentation",
    regEntry "es_psicoactivo" .biological "Affects consciousness or perception",
    regEntry "conduce_electricidad" .energy "Allows electricity to flow",
    regEntry "es_magnetico" .energy "Has magnetic properties",
    regEntry "brilla" .energy "Emits light",
    regEntry "absorbe_luz" .energy "Absorbs light energy",
    regEntry "es_radioactivo" .energy "Emits radiation",
    regEntry "vibra" .energy "Produces vibrations or sound",
    regEntry "es_superconductor" .energy "Conducts with zero resistance",
    regEntry "genera_campo" .energy "Creates an energy field",
    regEntry "es_piezoelectrico" .energy "Generates electricity under pressure",
    regEntry "es_humedo" .state "Contains moisture" false,
    regEntry "esta_mojado" .state "Covered with liquid" false,
    regEntry "esta_quemado" .state "Has been burned" false,
    regEntry "esta_roto" .state "Is damaged or broken" false,
    regEntry "esta_cargado" .state "Has electrical charge" false,
    regEntry "esta_magnetizado" .state "Is temporarily magnetized" false,
    regEntry "esta_activado" .state "Is in an active/energized state" false,
    regEntry "esta_concentrado" .state "Is in concentrated form" false,
    regEntry "esta_purificado" .state "Has been refined/purified" false,
    regEntry "es_hibrido" .state "Is a combination of different materials" false ]

/-- `PropertyRegistry.get_property`. -/
def registry_get (name : String) : Option PropertyTemplate :=
  property_registry.find? (fun t => t.name == name)

/-- `PropertyRegistry.create_property_instance`. -/
def create_property_instance (name : String) (intensity : Option ℚ) : Option PropertyValue :=
  match registry_get name with
  | none => none
  | some t =>
      some { name := t.name, property_type := t.property_type,
             intensity := intensity.getD t.intensity,
             is_permanent := t.is_permanent, description := t.description }

/-! ## `objects.py`: `UniverseObject` and `CombinationResult` -/

/-- `ObjectState` dataclass. -/
structure ObjectState where
  durability : ℤ := 100
  temperature : ℚ := 20
  mass : ℚ := 1
  energy_level : ℚ := 0
  is_active : Bool := true
deriving DecidableEq

/-- `UniverseObject`.  `oid` models the `uuid4` identity string; `properties`
models the name-keyed dict (insertion order, unique names); `history` keeps
the change-log descriptions (bounded to the last 50 entries, state snapshots
elided). -/
structure UniverseObject where
  oid : Nat
  name : String
  x : ℤ := 0
  y : ℤ := 0
  properties : List PropertyValue := []
  state : ObjectState := {}
  history : List String := []
  age : Nat := 0
deriving DecidableEq

/-- Python dict assignment `properties[name] = p` (replace the binding in
place, or append a new one). -/
def setProp : List PropertyValue → PropertyValue → List PropertyValue
  | [], p => [p]
  | q :: qs, p => if q.name == p.name then p :: qs else q :: setProp qs p

/-- Python `del properties[name]` (drop the binding; names are unique keys). -/
def delProp : List PropertyValue → String → List PropertyValue
  | [], _ => []
  | q :: qs, n => if q.name == n then qs else q :: delProp qs n

/-- `UniverseObject._log_change` (keeps only the last 50 entries). -/
def UniverseObject.log_change (o : UniverseObject) (d : String) : UniverseObject :=
  let h := o.history ++ [d]
  { o with history := if 50 < h.length then h.drop (h.length - 50) else h }

/-- `UniverseObject.get_property`. -/
def UniverseObject.get_property (o : UniverseObject) (n : String) : Option PropertyValue :=
  o.properties.find? (fun q => q.name == n)

/-- `UniverseObject.has_property`. -/
def UniverseObject.has_property (o : UniverseObject) (n : String) : Bool :=
  (o.get_property n).isSome

/-- `UniverseObject.add_property` (returns the mutated object and the Python
return value). -/
def UniverseObject.add_property (o : UniverseObject) (n : String) (intensity : Option ℚ) :
    UniverseObject × Bool :=
  match create_property_instance n intensity with
  | some p =>
      ({ o with properties := setProp o.properties p }.log_change ("Gained property: " ++ p.name), true)
  | none => (o, false)

/-- `UniverseObject.remove_property`: a permanent property is only logged
about, never removed. -/
def UniverseObject.remove_property (o : UniverseObject) (n : String) :
    UniverseObject × Bool :=
  match o.get_property n with
  | none => (o, false)
  | some p =>
      if ¬ p.is_permanent then
        ({ o with properties := delProp o.properties n }.log_change ("Lost property: " ++ p.name), true)
      else
        (o.log_change ("Cannot remove permanent property: " ++ p.name), false)

/-- `UniverseObject.modify_property_intensity`: clamp the new intensity into
`[0, 1]`; a non-permanent property whose clamped intensity reaches 0 is
removed via `remove_property`. -/
def UniverseObject.modify_property_intensity (o : UniverseObject) (n : String) (delta : ℚ) :
    UniverseObject × Bool :=
  match o.get_property n with
  | none => (o, false)
  | some p =>
      let newI := max 0 (min 1 (qAdd p.intensity delta))
      let o1 := { o with properties := setProp o.properties { p with intensity := newI } }
      if newI ≤ 0 ∧ ¬ p.is_permanent then
        ((o1.remove_property n).1, true)
      else
        (o1.log_change ("Property " ++ n ++ " intensity changed"), true)

/-- `UniverseObject.take_damage` (returns the mutated object and whether the
object was destroyed). -/
def UniverseObject.take_damage (o : UniverseObject) (amount : ℤ) :
    UniverseObject × Bool :=
  let o := { o with state := { o.state with durability := max 0 (o.state.durability - amount) } }
  let o := o.log_change "Took damage"
  if o.state.durability ≤ 0 then
    (({ o with state := { o.state with is_active := false } }).log_change "Object destroyed!", true)
  else
    let o := if o.state.durability < 30 ∧ o.has_property "es_fragil" then
               (o.add_property "esta_roto" none).1
             else o
    (o, false)

/-- `UniverseObject.change_temperature`. -/
def UniverseObject.change_temperature (o : UniverseObject) (delta : ℚ) : UniverseObject :=
  let o := { o with state := { o.state with temperature := qAdd o.state.temperature delta } }
  let o :=
    if 100 < o.state.temperature ∧ o.has_property "es_organico" then
      (o.add_property "esta_quemado" none).1
    else if o.state.temperature < 0 ∧ o.has_property "es_humedo" then
      (o.remove_property "es_humedo").1
    else o
  o.log_change "Temperature change"

/-- `UniverseObject.get_interaction_strength`. -/
def UniverseObject.get_interaction_strength (o : UniverseObject) : ℚ :=
  let s : ℚ := 0
  let s := match o.get_property "es_duro" with
           | some p => qAdd s (qMul p.intensity 10)
           | none => s
  let s := match o.get_property "es_cortante" with
           | some p => qAdd s (qMul p.intensity 15)
           | none => s
  let s := match o.get_property "es_puntiagudo" with
           | some p => qAdd s (qMul p.intensity 12)
           | none => s
  qMul s (qDiv (o.state.durability : ℚ) 100)

/-- Build a `UniverseObject` as `UniverseObject.__init__` does: fold
`add_property` over the base property names. -/
def mkUniverseObject (oid : Nat) (name : String) (base_properties : List String)
    (x : ℤ := 0) (y : ℤ := 0) : UniverseObject :=
  base_properties.foldl (fun o n => (o.add_property n none).1)
    { oid := oid, name := name, x := x, y := y }

/-- `CombinationResult`. -/
structure CombinationResult where
  success : Bool := false
  new_objects : List UniverseObject := []
  modified_objects : List UniverseObject := []
  destroyed_objects : List UniverseObject := []
  description : String := ""
  significance_score : ℚ := 0
  new_concepts_discovered : List String := []
deriving DecidableEq

/-- `CombinationResult.add_new_object`. -/
def CombinationResult.add_new_object (r : CombinationResult) (o : UniverseObject) :
    CombinationResult :=
  { r with new_objects := r.new_objects ++ [o] }

/-- `CombinationResult.add_modified_object` (`obj not in list` is Python
object identity, modelled by `oid`). -/
def CombinationResult.add_modified_object (r : CombinationResult) (o : UniverseObject) :
    CombinationResult :=
  if r.modified_objects.any (fun m => m.oid == o.oid) then r
  else { r with modified_objects := r.modified_objects ++ [o] }

/-- `CombinationResult.add_destroyed_object`. -/
def CombinationResult.add_destroyed_object (r : CombinationResult) (o : UniverseObject) :
    CombinationResult :=
  { r with destroyed_objects := r.destroyed_objects ++ [o] }

/-- Number of `STATE`-typed properties of an object (the quantity counted by
`calculate_significance` for each modified object). -/
def countStateProps (o : UniverseObject) : Nat :=
  (o.properties.filter (fun p => p.property_type == PropertyType.state)).length

/-- `CombinationResult.calculate_significance`: recomputes the score from
scratch (`score = 0.0; score += ...`) and **overwrites**
`significance_score` with it. -/
def CombinationResult.calculate_significance (r : CombinationResult) :
    CombinationResult × ℚ :=
  let score : ℚ := 0
  let score := qAdd score (qMul (r.new_objects.length : ℚ) 10)
  let score := r.modified_objects.foldl
    (fun acc o => qAdd acc (qMul (countStateProps o : ℚ) 2)) score
  let score := qAdd score (qMul (r.destroyed_objects.length : ℚ) 5)
  ({ r with significance_score := score }, score)

/-! ## `interactions.py`: the interaction engine

Handler functions (`result_function` fields) are a closed set of methods of
`InteractionEngine`; they are modelled by the enumeration `HandlerKind`
dispatched in `apply_rule_handler`.  Random draws are supplied by `HOracle`
(`p1`, `p2` for the successive `random.random()` calls of one handler,
`choice` for its `random.choice`, `id1`/`id2` for the `uuid4` identities of
objects the handler creates). -/

/-- `InteractionType` enum. -/
inductive InteractionType where
  | combine | strike | apply | mix | heat | cool | pressure | touch
deriving DecidableEq, BEq

/-- `InteractionType.value`. -/
def InteractionType.value : InteractionType → String
  | .combine => "combine"
  | .strike => "strike"
  | .apply => "apply"
  | .mix => "mix"
  | .heat => "heat"
  | .cool => "cool"
  | .pressure => "pressure"
  | .touch => "touch"

/-- `InteractionType(action.lower())`: `none` models the `ValueError` the
enum constructor raises on an unrecognized value. -/
def parse_interaction_type (action : String) : Option InteractionType :=
  let s := pyLower action
  if s == "combine" then some .combine
  else if s == "strike" then some .strike
  else if s == "apply" then some .apply
  else if s == "mix" then some .mix
  else if s == "heat" then some .heat
  else if s == "cool" then some .cool
  else if s == "pressure" then some .pressure
  else if s == "touch" then some .touch
  else none

/-- The closed set of handler methods installed by `_initialize_base_rules`. -/
inductive HandlerKind where
  | cutting | breaking | burning | evaporation | corrosion | tool_creation
  | organic_mixing | chemical_reaction | fermentation
  | electromagnetic_induction | piezo_effect | catalysis | crystallization
  | explosion | advanced_conductor
deriving DecidableEq, BEq

/-- `InteractionRule` dataclass. -/
structure InteractionRule where
  trigger_properties : List String
  target_properties : List String
  action_type : InteractionType
  result_function : HandlerKind
  probability : ℚ := 1
  requires_tool : Bool := false
  description : String := ""
deriving DecidableEq

/-- The rules installed by `InteractionEngine._initialize_base_rules`, in
registration order. -/
def base_rules : List InteractionRule :=
  [ { trigger_properties := ["es_cortante"], target_properties := ["es_fragil"],
      action_type := .strike, result_function := .cutting,
      description := "Sharp objects can cut fragile materials" },
    { trigger_properties := ["es_duro"], target_properties := ["es_fragil"],
      action_type := .strike, result_function := .breaking,
      description := "Hard objects can break fragile materials" },
    { trigger_properties := ["es_caliente"], target_properties := ["es_organico"],
      action_type := .touch, result_function := .burning,
      description := "Heat burns organic materials" },
    { trigger_properties := ["es_caliente"], target_properties := ["es_humedo"],
      action_type := .apply, result_function := .evaporation,
      description := "Heat evaporates moisture" },
    { trigger_properties := ["es_acido"], target_properties := ["es_duro", "es_organico"],
      action_type := .apply, result_function := .corrosion,
      description := "Acid corrodes materials" },
    { trigger_properties := ["es_reactivo"], target_properties := ["es_reactivo"],
      action_type := .mix, result_function := .chemical_reaction,
      probability := mkRat 3 5,
      description := "Reactive materials can undergo chemical reactions" },
    { trigger_properties := ["es_cortante"], target_properties := ["es_fragil", "es_organico"],
      action_type := .pressure, result_function := .tool_creation,
      description := "Careful shaping creates pointed tools" },
    { trigger_properties := ["es_organico"], target_properties := ["es_organico"],
      action_type := .mix, result_function := .organic_mixing,
      probability := mkRat 3 10,
      description := "Organic materials can sometimes be mixed" },
    { trigger_properties := ["es_fermentable"], target_properties := ["es_organico"],
      action_type := .mix, result_function := .fermentation,
      probability := mkRat 1 2,
      description := "Fermentable materials can create new compounds" },
    { trigger_properties := ["es_magnetico"], target_properties := ["conduce_electricidad"],
      action_type := .touch, result_function := .electromagnetic_induction,
      description := "Magnetic fields can induce electricity" },
    { trigger_properties := ["es_piezoelectrico"], target_properties := ["es_duro"],
      action_type := .pressure, result_function := .piezo_effect,
      description := "Pressure on piezoelectric materials generates electricity" },
    { trigger_properties := ["es_catalizador"], target_properties := ["es_reactivo"],
      action_type := .apply, result_function := .catalysis,
      description := "Catalysts accelerate reactions" },
    { trigger_properties := ["es_solvente"], target_properties := ["es_cristalino"],
      action_type := .mix, result_function := .crystallization,
      probability := mkRat 2 5,
      description := "Solvents can dissolve and reform crystals" },
    { trigger_properties := ["es_explosivo"], target_properties := ["es_caliente", "es_reactivo"],
      action_type := .apply, result_function := .explosion,
      probability := mkRat 4 5,
      description := "Explosive materials react violently with heat or reactants" },
    { trigger_properties := ["conduce_electricidad"], target_properties := ["es_magnetico"],
      action_type := .combine, result_function := .advanced_conductor,
      probability := mkRat 3 10,
      description := "Combining conductive and magnetic materials creates advanced properties" } ]

/-- The intensity of a property held by an object.  The engine only reads the
intensity of properties whose presence the rule matching just established, so
the `none` branch (where Python would raise an `AttributeError`) is
unreachable from `interact`. -/
def propIntensity (o : UniverseObject) (n : String) : ℚ :=
  match o.get_property n with
  | some p => p.intensity
  | none => 0

/-- `random.choice` on a non-empty list, with the draw supplied as an index. -/
def pyChoiceD (i : Nat) (l : List α) (d : α) : α := l.getD (i % l.length) d

/-- Oracle for the random draws of a single handler invocation. -/
structure HOracle where
  p1 : ℚ := 1
  p2 : ℚ := 1
  choice : Nat := 0
  id1 : Nat := 1000
  id2 : Nat := 1001
deriving DecidableEq

/-- `InteractionEngine._rule_cutting`. -/
def rule_cutting (orc : HOracle) (actor target : UniverseObject)
    (_tool : Option UniverseObject) (r : CombinationResult) :
    UniverseObject × UniverseObject × CombinationResult :=
  let sharpness := propIntensity actor "es_cortante"
  let target_resistance := propIntensity target "es_fragil"
  if target_resistance < sharpness then
    let target := (target.add_property "esta_roto" none).1
    let r :=
      if target.has_property "es_organico" ∧ orc.p1 < mkRat 3 5 then
        let new_object := mkUniverseObject orc.id1 (target.name ++ " Puntiagudo")
          ["es_organico", "es_puntiagudo", "es_fragil"] target.x target.y
        r.add_new_object new_object
      else r
    let damage := pyInt (qMul sharpness 20)
    let target := (target.take_damage damage).1
    (actor, target, r.add_modified_object target)
  else
    (actor, target, r)

/-- `InteractionEngine._rule_breaking`.  In the source the non-destroyed
branch first appends `target` to `modified_objects` and then adds the
`esta_roto` property; the list holds a reference, so every later reader sees
the post-mutation state, which is what is stored here. -/
def rule_breaking (_orc : HOracle) (actor target : UniverseObject)
    (_tool : Option UniverseObject) (r : CombinationResult) :
    UniverseObject × UniverseObject × CombinationResult :=
  let hardness := propIntensity actor "es_duro"
  let fragility := propIntensity target "es_fragil"
  let damage := pyInt (qMul (qMul hardness fragility) 25)
  let td := target.take_damage damage
  let target := td.1
  if td.2 then
    (actor, target, r.add_destroyed_object target)
  else
    let target := (target.add_property "esta_roto" none).1
    (actor, target, r.add_modified_object target)

/-- `InteractionEngine._rule_burning`. -/
def rule_burning (orc : HOracle) (actor target : UniverseObject)
    (_tool : Option UniverseObject) (r : CombinationResult) :
    UniverseObject × UniverseObject × CombinationResult :=
  let heat := propIntensity actor "es_caliente"
  let target := (target.add_property "esta_quemado" none).1
  let target := target.change_temperature (qMul heat 50)
  let damage := pyInt (qMul heat 30)
  let target := (target.take_damage damage).1
  let r := r.add_modified_object target
  let r :=
    if orc.p1 < mkRat 3 10 then
      let ash := mkUniverseObject orc.id1 "Ceniza" ["es_organico", "es_fragil"] target.x target.y
      r.add_new_object ash
    else r
  (actor, target, r)

/-- `InteractionEngine._rule_evaporation`.  (`es_concentrado` is not in the
property registry, so the source's `concentrated.add_property` call silently
does nothing.) -/
def rule_evaporation (orc : HOracle) (actor target : UniverseObject)
    (_tool : Option UniverseObject) (r : CombinationResult) :
    UniverseObject × UniverseObject × CombinationResult :=
  let target := (target.remove_property "es_humedo").1
  let target := (target.remove_property "esta_mojado").1
  let r :=
    if target.has_property "es_nutritivo" ∧ orc.p1 < mkRat 2 5 then
      let props := (target.properties.map (fun p => p.name)).filter
        (fun n => ¬ (n == "es_humedo" ∨ n == "esta_mojado"))
      let concentrated := mkUniverseObject orc.id1 (target.name ++ " Concentrado") props
        target.x target.y
      let concentrated := (concentrated.add_property "es_concentrado" none).1
      r.add_new_object concentrated
    else r
  (actor, target, r.add_modified_object target)

/-- `InteractionEngine._rule_corrosion`. -/
def rule_corrosion (_orc : HOracle) (actor target : UniverseObject)
    (_tool : Option UniverseObject) (r : CombinationResult) :
    UniverseObject × UniverseObject × CombinationResult :=
  let acid_strength := propIntensity actor "es_acido"
  let damage := pyInt (qMul acid_strength 15)
  let target := (target.take_damage damage).1
  let target :=
    if target.has_property "es_duro" then
      (target.modify_property_intensity "es_duro" (mkRat (-1) 5)).1
    else target
  (actor, target, r.add_modified_object target)

/-- `InteractionEngine._rule_tool_creation`: on success adds the
`Lanza Primitiva` object and a handler-specific `+15` significance bonus. -/
def rule_tool_creation (orc : HOracle) (actor target : UniverseObject)
    (_tool : Option UniverseObject) (r : CombinationResult) :
    UniverseObject × UniverseObject × CombinationResult :=
  if target.has_property "es_organico" ∧ target.has_property "es_fragil" then
    let sharpness := propIntensity actor "es_cortante"
    if mkRat 3 5 < sharpness ∧ orc.p1 < mkRat 7 10 then
      let spear := mkUniverseObject orc.id1 "Lanza Primitiva"
        ["es_organico", "es_puntiagudo", "es_liviano"] target.x target.y
      let spear := { spear with state := { spear.state with
        durability := pyInt (qMul (target.state.durability : ℚ) (mkRat 4 5)) } }
      let r := r.add_new_object spear
      let r := { r with significance_score := qAdd r.significance_score 15 }
      (actor, target, r.add_destroyed_object target)
    else (actor, target, r)
  else (actor, target, r)

/-- `InteractionEngine._rule_organic_mixing`. -/
def rule_organic_mixing (orc : HOracle) (actor target : UniverseObject)
    (_tool : Option UniverseObject) (r : CombinationResult) :
    UniverseObject × UniverseObject × CombinationResult :=
  if orc.p1 < mkRat 2 5 then
    let new_properties : List String := []
    let new_properties :=
      if actor.has_property "es_nutritivo" ∧ target.has_property "es_nutritivo" then
        new_properties ++ ["es_nutritivo"]
      else new_properties
    let new_properties :=
      if actor.has_property "es_venenoso" ∨ target.has_property "es_venenoso" then
        new_properties ++ ["es_organico", "es_venenoso"]
      else new_properties ++ ["es_organico"]
    let new_properties :=
      if orc.p2 < mkRat 1 10 then
        new_properties ++ [pyChoiceD orc.choice ["brilla", "es_concentrado", "conduce_electricidad"] ""]
      else new_properties
    let mixture := mkUniverseObject orc.id1 ("Mezcla de " ++ actor.name ++ " y " ++ target.name)
      new_properties (Int.fdiv (actor.x + target.x) 2) (Int.fdiv (actor.y + target.y) 2)
    let r := r.add_new_object mixture
    let r := r.add_destroyed_object actor
    (actor, target, r.add_destroyed_object target)
  else (actor, target, r)

/-- `InteractionEngine._rule_chemical_reaction`. -/
def rule_chemical_reaction (orc : HOracle) (actor target : UniverseObject)
    (_tool : Option UniverseObject) (r : CombinationResult) :
    UniverseObject × UniverseObject × CombinationResult :=
  let compound_properties : List String :=
    if actor.has_property "es_acido" ∧ target.has_property "es_alcalino" then
      ["es_estable", "es_cristalino"]
    else if actor.has_property "es_explosivo" ∨ target.has_property "es_explosivo" then
      ["es_reactivo", "brilla", "es_caliente"]
    else
      ["es_reactivo", "es_hibrido"]
  let compound_properties :=
    if orc.p1 < mkRat 3 10 then
      compound_properties ++ [pyChoiceD orc.choice ["es_catalizador", "es_solvente", "conduce_electricidad"] ""]
    else compound_properties
  let compound := mkUniverseObject orc.id1 ("Compuesto de " ++ actor.name ++ " y " ++ target.name)
    compound_properties (Int.fdiv (actor.x + target.x) 2) (Int.fdiv (actor.y + target.y) 2)
  let r := r.add_new_object compound
  let r := r.add_destroyed_object actor
  (actor, target, r.add_destroyed_object target)

/-- `InteractionEngine._rule_fermentation`. -/
def rule_fermentation (orc : HOracle) (actor target : UniverseObject)
    (_tool : Option UniverseObject) (r : CombinationResult) :
    UniverseObject × UniverseObject × CombinationResult :=
  let prod := pyChoiceD orc.choice
    [("Alcohol", ["es_organico", "es_inflamable", "es_toxico"]),
     ("Vinagre", ["es_organico", "es_acido", "es_solvente"]),
     ("Gas Metano", ["es_inflamable", "es_explosivo", "vibra"]),
     ("Enzima", ["es_organico", "es_catalizador", "es_fragil"])] ("", [])
  let product := mkUniverseObject orc.id1 prod.1 prod.2 target.x target.y
  let r := r.add_new_object product
  (actor, target, r.add_modified_object target)

/-- `InteractionEngine._rule_electromagnetic_induction`. -/
def rule_electromagnetic_induction (orc : HOracle) (actor target : UniverseObject)
    (_tool : Option UniverseObject) (r : CombinationResult) :
    UniverseObject × UniverseObject × CombinationResult :=
  let target := (target.add_property "esta_cargado" none).1
  let target := (target.add_property "genera_campo" none).1
  let r :=
    if orc.p1 < mkRat 2 5 then
      let generator := mkUniverseObject orc.id1 "Generador Primitivo"
        ["conduce_electricidad", "es_magnetico", "genera_campo"] target.x target.y
      r.add_new_object generator
    else r
  (actor, target, r.add_modified_object target)

/-- `InteractionEngine._rule_piezo_effect`. -/
def rule_piezo_effect (orc : HOracle) (actor target : UniverseObject)
    (_tool : Option UniverseObject) (r : CombinationResult) :
    UniverseObject × UniverseObject × CombinationResult :=
  let target := (target.add_property "esta_cargado" none).1
  let target := (target.add_property "brilla" none).1
  let r :=
    if orc.p1 < mkRat 3 10 then
      let battery := mkUniverseObject orc.id1 "Bateria Cristalina"
        ["es_piezoelectrico", "conduce_electricidad", "es_cristalino"] target.x target.y
      r.add_new_object battery
    else r
  (actor, target, r.add_modified_object target)

/-- `InteractionEngine._rule_catalysis`. -/
def rule_catalysis (orc : HOracle) (actor target : UniverseObject)
    (_tool : Option UniverseObject) (r : CombinationResult) :
    UniverseObject × UniverseObject × CombinationResult :=
  let refined_products :=
    if target.has_property "es_organico" then
      [("Proteina Pura", ["es_organico", "es_nutritivo", "esta_purificado"]),
       ("Aceite Refinado", ["es_organico", "es_inflamable", "es_viscoso"]),
       ("Fibra Procesada", ["es_organico", "es_flexible", "es_duro"])]
    else
      [("Metal Puro", ["es_duro", "conduce_electricidad", "esta_purificado"]),
       ("Cristal Perfecto", ["es_cristalino", "brilla", "es_duro"]),
       ("Ceramica", ["es_duro", "es_incombustible", "es_cristalino"])]
  let prod := pyChoiceD orc.choice refined_products ("", [])
  let product := mkUniverseObject orc.id1 prod.1 prod.2 target.x target.y
  let r := r.add_new_object product
  (actor, target, r.add_modified_object target)

/-- `InteractionEngine._rule_crystallization`. -/
def rule_crystallization (orc : HOracle) (actor target : UniverseObject)
    (_tool : Option UniverseObject) (r : CombinationResult) :
    UniverseObject × UniverseObject × CombinationResult :=
  if actor.has_property "es_solvente" then
    if orc.p1 < mkRat 3 5 then
      let cry := pyChoiceD orc.choice
        [("Cuarzo", ["es_cristalino", "es_piezoelectrico", "brilla"]),
         ("Sal Cristalina", ["es_cristalino", "es_solvente", "es_duro"]),
         ("Gema", ["es_cristalino", "es_duro", "absorbe_luz", "brilla"])] ("", [])
      let crystal := mkUniverseObject orc.id1 cry.1 cry.2 target.x target.y
      let r := r.add_new_object crystal
      (actor, target, r.add_destroyed_object target)
    else (actor, target, r)
  else (actor, target, r)

/-- `InteractionEngine._rule_explosion`. -/
def rule_explosion (orc : HOracle) (actor target : UniverseObject)
    (_tool : Option UniverseObject) (r : CombinationResult) :
    UniverseObject × UniverseObject × CombinationResult :=
  let explosion := mkUniverseObject orc.id1 "Explosion" ["es_caliente", "brilla", "vibra"]
    actor.x actor.y
  let explosion := { explosion with state := { explosion.state with temperature := 1000 } }
  let r := r.add_new_object explosion
  let r := r.add_destroyed_object actor
  let r :=
    if orc.p1 < mkRat 1 2 then
      let frag := pyChoiceD orc.choice
        [("Fragmentos Metalicos", ["es_duro", "es_cortante", "conduce_electricidad"]),
         ("Ceniza Reactiva", ["es_organico", "es_reactivo", "es_fragil"]),
         ("Plasma", ["brilla", "es_caliente", "conduce_electricidad", "vibra"])] ("", [])
      let fragment := mkUniverseObject orc.id2 frag.1 frag.2 actor.x actor.y
      r.add_new_object fragment
    else r
  let target := (target.take_damage 80).1
  (actor, target, r.add_modified_object target)

/-- `InteractionEngine._rule_advanced_conductor`: adds a handler-specific
`+20` significance bonus. -/
def rule_advanced_conductor (orc : HOracle) (actor target : UniverseObject)
    (_tool : Option UniverseObject) (r : CombinationResult) :
    UniverseObject × UniverseObject × CombinationResult :=
  let mat := pyChoiceD orc.choice
    [("Superconductor", ["es_superconductor", "es_frio", "conduce_electricidad"]),
     ("Electromagneto", ["conduce_electricidad", "es_magnetico", "genera_campo"]),
     ("Bobina de Induccion", ["conduce_electricidad", "es_magnetico", "vibra", "genera_campo"])] ("", [])
  let material := mkUniverseObject orc.id1 mat.1 mat.2
    (Int.fdiv (actor.x + target.x) 2) (Int.fdiv (actor.y + target.y) 2)
  let r := r.add_new_object material
  let r := r.add_destroyed_object actor
  let r := r.add_destroyed_object target
  let r := { r with significance_score := qAdd r.significance_score 20 }
  (actor, target, r)

/-- Dispatch over the closed handler table. -/
def apply_rule_handler (k : HandlerKind) (orc : HOracle) (actor target : UniverseObject)
    (tool : Option UniverseObject) (r : CombinationResult) :
    UniverseObject × UniverseObject × CombinationResult :=
  match k with
  | .cutting => rule_cutting orc actor target tool r
  | .breaking => rule_breaking orc actor target tool r
  | .burning => rule_burning orc actor target tool r
  | .evaporation => rule_evaporation orc actor target tool r
  | .corrosion => rule_corrosion orc actor target tool r
  | .tool_creation => rule_tool_creation orc actor target tool r
  | .organic_mixing => rule_organic_mixing orc actor target tool r
  | .chemical_reaction => rule_chemical_reaction orc actor target tool r
  | .fermentation => rule_fermentation orc actor target tool r
  | .electromagnetic_induction => rule_electromagnetic_induction orc actor target tool r
  | .piezo_effect => rule_piezo_effect orc actor target tool r
  | .catalysis => rule_catalysis orc actor target tool r
  | .crystallization => rule_crystallization orc actor target tool r
  | .explosion => rule_explosion orc actor target tool r
  | .advanced_conductor => rule_advanced_conductor orc actor target tool r

/-- `InteractionEngine._random_property_exchange`. -/
def random_property_exchange (orc : HOracle) (actor target : UniverseObject)
    (r : CombinationResult) : UniverseObject × UniverseObject × CombinationResult :=
  let transferable_props := (actor.properties.filter
    (fun p => ¬ p.is_permanent ∧ mkRat 3 10 < p.intensity)).map (fun p => p.name)
  if transferable_props ≠ [] ∧ orc.p2 < mkRat 1 2 then
    let prop_name := pyChoiceD orc.choice transferable_props ""
    let transfer_amount := qMul (propIntensity actor prop_name) (mkRat 3 10)
    let target := (target.add_property prop_name (some transfer_amount)).1
    let actor := (actor.modify_property_intensity prop_name (-transfer_amount)).1
    let r := r.add_modified_object actor
    let r := r.add_modified_object target
    let r := { r with
      description := prop_name ++ " transferred from " ++ actor.name ++ " to " ++ target.name,
      success := true }
    (actor, target, r)
  else (actor, target, r)

/-- `InteractionEngine._generic_interaction`. -/
def generic_interaction (orc : HOracle) (actor target : UniverseObject)
    (it : InteractionType) : UniverseObject × UniverseObject × CombinationResult :=
  let r : CombinationResult := {}
  match it with
  | .strike =>
      let damage := max 1 (pyInt (qSub actor.get_interaction_strength
        (qMul (target.state.durability : ℚ) (mkRat 1 10))))
      let target := (target.take_damage damage).1
      let r := r.add_modified_object target
      let r := { r with
        description := actor.name ++ " strikes " ++ target.name,
        success := decide (0 < damage) }
      (actor, target, r)
  | .touch =>
      let temp_diff := qSub actor.state.temperature target.state.temperature
      if 10 < |temp_diff| then
        let transfer := qMul temp_diff (mkRat 1 10)
        let actor := actor.change_temperature (-transfer)
        let target := target.change_temperature transfer
        let r := r.add_modified_object actor
        let r := r.add_modified_object target
        let r := { r with
          description := "Temperature exchange between " ++ actor.name ++ " and " ++ target.name,
          success := true }
        (actor, target, r)
      else (actor, target, r)
  | .combine =>
      if orc.p1 < mkRat 1 10 then
        random_property_exchange orc actor target r
      else (actor, target, r)
  | _ => (actor, target, r)

/-- `InteractionEngine._find_applicable_rules`. -/
def find_applicable_rules (rules : List InteractionRule) (actor target : UniverseObject)
    (it : InteractionType) (tool : Option UniverseObject) : List InteractionRule :=
  rules.filter (fun rule =>
    rule.action_type == it &&
    !(rule.requires_tool && tool.isNone) &&
    rule.trigger_properties.all (fun p => actor.has_property p) &&
    rule.target_properties.any (fun p => target.has_property p))

/-- The score `_select_best_rule` assigns to a candidate rule. -/
def rule_score (actor target : UniverseObject) (rule : InteractionRule) : ℚ :=
  let score : ℚ := 0
  let score := rule.trigger_properties.foldl
    (fun acc p => if actor.has_property p then qAdd acc (qMul (propIntensity actor p) 10) else acc)
    score
  let score := rule.target_properties.foldl
    (fun acc p => if target.has_property p then qAdd acc (qMul (propIntensity target p) 5) else acc)
    score
  qAdd score ((rule.trigger_properties.length + rule.target_properties.length : ℕ) : ℚ)

/-- A vacuous rule used only to give `_select_best_rule` a total type; the
engine never calls it on an empty candidate list. -/
def dummy_rule : InteractionRule :=
  { trigger_properties := [], target_properties := [],
    action_type := .combine, result_function := .cutting }

/-- `InteractionEngine._select_best_rule`: highest score wins, ties broken by
registration order (Python's stable descending sort). -/
def select_best_rule (rules : List InteractionRule) (actor target : UniverseObject) :
    InteractionRule :=
  match rules with
  | [r] => r
  | _ =>
      let scored := rules.map (fun r => (rule_score actor target r, r))
      let sorted := pySorted (fun a b => decide (b.1 ≤ a.1)) scored
      (sorted.headD (0, dummy_rule)).2

/-- One entry of `InteractionEngine.interaction_history`. -/
structure InteractionLogEntry where
  actor : String
  target : String
  action : String
  tool : Option String
  timestamp : Nat
deriving DecidableEq

/-- The mutable state of the global `INTERACTION_ENGINE` singleton. -/
structure EngineState where
  rules : List InteractionRule := base_rules
  interaction_history : List InteractionLogEntry := []
  discovered_combinations : List ((String × String × String) × List CombinationResult) := []
  failed_attempts : List ((String × String × String) × Nat) := []
deriving DecidableEq

/-- `InteractionEngine._log_interaction`. -/
def log_interaction (st : EngineState) (actor target : UniverseObject)
    (it : InteractionType) (tool : Option UniverseObject) : EngineState :=
  { st with interaction_history := st.interaction_history ++
      [{ actor := actor.name, target := target.name, action := it.value,
         tool := tool.map (fun t => t.name),
         timestamp := st.interaction_history.length }] }

/-- Append to the list stored under a key of `discovered_combinations`. -/
def assocAppendResult (l : List ((String × String × String) × List CombinationResult))
    (k : String × String × String) (r : CombinationResult) :
    List ((String × String × String) × List CombinationResult) :=
  match l with
  | [] => [(k, [r])]
  | (k', rs) :: rest =>
      if k' == k then (k', rs ++ [r]) :: rest
      else (k', rs) :: assocAppendResult rest k r

/-- Increment the counter stored under a key of `failed_attempts`. -/
def assocBumpCount (l : List ((String × String × String) × Nat))
    (k : String × String × String) : List ((String × String × String) × Nat) :=
  match l with
  | [] => [(k, 1)]
  | (k', n) :: rest =>
      if k' == k then (k', n + 1) :: rest
      else (k', n) :: assocBumpCount rest k

/-- `InteractionEngine._store_interaction_result`. -/
def store_interaction_result (st : EngineState) (actor target : UniverseObject)
    (it : InteractionType) (r : CombinationResult) : EngineState :=
  let key := (actor.name, target.name, it.value)
  if r.success then
    { st with discovered_combinations := assocAppendResult st.discovered_combinations key r }
  else
    { st with failed_attempts := assocBumpCount st.failed_attempts key }

/-- Oracle for a single `interact` call: `rule_roll` is the
`random.random() <= best_rule.probability` draw, `handler` the chosen
handler's draws, `generic` the draws of `_generic_interaction`. -/
structure InteractOracle where
  rule_roll : ℚ := 0
  handler : HOracle := {}
  generic : HOracle := {}
deriving DecidableEq

/-- `InteractionEngine.interact`.  The `Except.error` value models the
`ValueError` raised by `InteractionType(action.lower())` on an unrecognized
action kind: it propagates before anything is logged, and no
`CombinationResult` is produced.  On the no-candidate path the source
returns `_generic_interaction`'s result directly, skipping both
`calculate_significance` and `_store_interaction_result`. -/
def interact (st : EngineState) (orc : InteractOracle) (actor target : UniverseObject)
    (action : String) (tool : Option UniverseObject) :
    Except String (CombinationResult × UniverseObject × UniverseObject) × EngineState :=
  match parse_interaction_type action with
  | none => (Except.error "ValueError: not a valid InteractionType", st)
  | some it =>
      let st := log_interaction st actor target it tool
      let applicable_rules := find_applicable_rules st.rules actor target it tool
      if applicable_rules.isEmpty then
        let out := generic_interaction orc.generic actor target it
        (Except.ok (out.2.2, out.1, out.2.1), st)
      else
        let best_rule := select_best_rule applicable_rules actor target
        let out :=
          if orc.rule_roll ≤ best_rule.probability then
            let h := apply_rule_handler best_rule.result_function orc.handler actor target tool
              ({} : CombinationResult)
            let hr := h.2.2
            let r := { hr with
              success := true
              description := best_rule.description ++ ": " ++ h.1.name ++ " + " ++ h.2.1.name }
            (h.1, h.2.1, r)
          else
            (actor, target,
             ({ description := "Interaction between " ++ actor.name ++ " and " ++ target.name ++ " failed" } : CombinationResult))
        let rsig := out.2.2.calculate_significance
        let st := store_interaction_result st out.1 out.2.1 it rsig.1
        (Except.ok (rsig.1, out.1, out.2.1), st)

/-! ## `discovery_system.py`: the discovery detector -/

/-- `DiscoveryType` enum. -/
inductive DiscoveryType where
  | new_object | new_property | tool_creation | compound_creation
  | process_discovery | property_combination | breakthrough
deriving DecidableEq, BEq

/-- `Discovery` dataclass.  It has no `result` attribute: nothing in the
code base ever sets one. -/
structure Discovery where
  id : String
  discovery_type : DiscoveryType
  name : String
  description : String
  significance : ℚ
  objects_involved : List String := []
  properties_involved : List String := []
  interaction_sequence : List String := []
  timestamp : Nat := 0
  discoverer_id : Option String := none
  reproducible : Bool := false
  applications : List String := []
deriving DecidableEq

/-- The per-signature record of `DiscoveryDetector.object_patterns`. -/
structure PatternInfo where
  first_seen : Nat
  times_created : Nat
  creation_methods : List String
deriving DecidableEq

/-- The per-key record of `DiscoveryDetector.property_emergence`. -/
structure PropEmergence where
  first_seen : Nat
  context : String
  significance : ℚ
deriving DecidableEq

/-- The mutable state of the global `DISCOVERY_DETECTOR` singleton
(`DiscoveryDetector(significance_threshold=5.0)`). -/
structure DetectorState where
  significance_threshold : ℚ := 5
  discoveries : List Discovery := []
  object_patterns : List (String × PatternInfo) := []
  property_emergence : List (String × PropEmergence) := []
  interaction_chains : List String := []
  next_discovery_id : Nat := 1
deriving DecidableEq

/-- Python `f"\x7bn:04d\x7d"` zero-padded decimal formatting. -/
def pad4 (n : Nat) : String :=
  let s := toString n
  if s.length < 4 then String.mk (List.replicate (4 - s.length) '0') ++ s else s

/-- `DiscoveryDetector._get_object_signature`: name plus the sorted property
names. -/
def get_object_signature (o : UniverseObject) : String :=
  let props := pySorted (fun a b => !(strLt b a)) (o.properties.map (fun p => p.name))
  o.name ++ "::" ++ String.intercalate ":" props

/-- `DiscoveryDetector._is_functional_tool`. -/
def is_functional_tool (o : UniverseObject) : Bool :=
  ["es_puntiagudo", "es_cortante", "es_duro"].any (fun p => o.has_property p)

/-- `DiscoveryDetector._classify_object_discovery`. -/
def classify_object_discovery (o : UniverseObject) : DiscoveryType :=
  if is_functional_tool o then .tool_creation
  else if 3 < o.properties.length then .compound_creation
  else .new_object

/-- `DiscoveryDetector._is_tool_creation`. -/
def is_tool_creation (r : CombinationResult) : Bool :=
  r.new_objects.any is_functional_tool

/-- `DiscoveryDetector._describe_tool_capabilities`. -/
def describe_tool_capabilities (tool : UniverseObject) : String :=
  let capabilities : List String := []
  let capabilities := if tool.has_property "es_puntiagudo" then capabilities ++ ["piercing"] else capabilities
  let capabilities := if tool.has_property "es_cortante" then capabilities ++ ["cutting"] else capabilities
  let capabilities := if tool.has_property "es_duro" then capabilities ++ ["striking"] else capabilities
  let capabilities := if tool.has_property "brilla" then capabilities ++ ["illumination"] else capabilities
  if capabilities.isEmpty then "unknown" else String.intercalate ", " capabilities

/-- Lookup in an association list keyed by strings. -/
def assocFind (l : List (String × α)) (k : String) : Option α :=
  (l.find? (fun e => e.1 == k)).map (fun e => e.2)

/-- Replace the value bound to a key of an association list. -/
def assocSet : List (String × α) → String → α → List (String × α)
  | [], k, v => [(k, v)]
  | (k', v') :: rest, k, v =>
      if k' == k then (k, v) :: rest else (k', v') :: assocSet rest k v

/-- The `for disc in self.discoveries.values(): if disc.name == ...` loop of
`_detect_new_object_discovery`: mark the first discovery bearing the name
reproducible (dict values iterate in insertion order). -/
def mark_reproducible : List Discovery → String → List Discovery
  | [], _ => []
  | d :: ds, n =>
      if d.name == n then { d with reproducible := true } :: ds
      else d :: mark_reproducible ds n

/-- The body of `DiscoveryDetector._detect_new_object_discovery`: walk
`result.new_objects`; return the first discovery produced by an unseen
signature, incrementing creation counters (and possibly marking an existing
discovery reproducible) for seen signatures along the way. -/
def detect_new_object_discovery_aux (st : DetectorState) (r : CombinationResult)
    (tick : Nat) (discoverer_id : Option String) :
    List UniverseObject → DetectorState × Option Discovery
  | [] => (st, none)
  | new_obj :: rest =>
      let object_signature := get_object_signature new_obj
      match assocFind st.object_patterns object_signature with
      | none =>
          let discovery_id := "DISC_" ++ pad4 st.next_discovery_id
          let st := { st with next_discovery_id := st.next_discovery_id + 1 }
          let discovery_type := classify_object_discovery new_obj
          let discovery : Discovery :=
            { id := discovery_id, discovery_type := discovery_type,
              name := "Discovery of " ++ new_obj.name,
              description := "Created " ++ new_obj.name ++ " with properties: " ++
                String.intercalate ", " (new_obj.properties.map (fun p => p.name)),
              significance := r.significance_score,
              objects_involved := (r.modified_objects ++ r.destroyed_objects).map (fun o => o.name),
              properties_involved := new_obj.properties.map (fun p => p.name),
              timestamp := tick, discoverer_id := discoverer_id, reproducible := false }
          let st := { st with object_patterns := st.object_patterns ++
            [(object_signature,
              { first_seen := tick, times_created := 1, creation_methods := [r.description] })] }
          (st, some discovery)
      | some info =>
          let info := { info with times_created := info.times_created + 1 }
          let info :=
            if info.creation_methods.contains r.description then info
            else { info with creation_methods := info.creation_methods ++ [r.description] }
          let st := { st with object_patterns := assocSet st.object_patterns object_signature info }
          let st :=
            if 3 ≤ info.times_created then
              { st with discoveries := mark_reproducible st.discoveries ("Discovery of " ++ new_obj.name) }
            else st
          detect_new_object_discovery_aux st r tick discoverer_id rest

/-- `DiscoveryDetector._detect_new_object_discovery`. -/
def detect_new_object_discovery (st : DetectorState) (r : CombinationResult)
    (tick : Nat) (discoverer_id : Option String) : DetectorState × Option Discovery :=
  detect_new_object_discovery_aux st r tick discoverer_id r.new_objects

/-- The inner `for prop_name in state_properties` loop of
`_detect_property_discovery`: register unseen `(objectName, propertyName)`
keys and collect the fresh property names. -/
def register_property_emergence (st : DetectorState) (r : CombinationResult)
    (tick : Nat) (obj_name : String) :
    List String → DetectorState × List String
  | [] => (st, [])
  | prop_name :: rest =>
      let prop_key := obj_name ++ "_" ++ prop_name
      if (assocFind st.property_emergence prop_key).isSome then
        register_property_emergence st r tick obj_name rest
      else
        let st := { st with property_emergence := st.property_emergence ++
          [(prop_key, { first_seen := tick, context := r.description,
                        significance := r.significance_score })] }
        let out := register_property_emergence st r tick obj_name rest
        (out.1, prop_name :: out.2)

/-- The body of `DiscoveryDetector._detect_property_discovery`. -/
def detect_property_discovery_aux (st : DetectorState) (r : CombinationResult)
    (tick : Nat) (discoverer_id : Option String) :
    List UniverseObject → DetectorState × Option Discovery
  | [] => (st, none)
  | obj :: rest =>
      let state_properties := (obj.properties.filter (fun p => ¬ p.is_permanent)).map
        (fun p => p.name)
      if state_properties.isEmpty then
        detect_property_discovery_aux st r tick discoverer_id rest
      else
        let out := register_property_emergence st r tick obj.name state_properties
        let st := out.1
        let new_properties := out.2
        if ¬ new_properties.isEmpty ∧
            qMul st.significance_threshold (mkRat 4 5) < r.significance_score then
          let discovery_id := "PROP_" ++ pad4 st.next_discovery_id
          let st := { st with next_discovery_id := st.next_discovery_id + 1 }
          (st, some
            { id := discovery_id, discovery_type := .property_combination,
              name := "New properties on " ++ obj.name,
              description := obj.name ++ " gained: " ++ String.intercalate ", " new_properties,
              significance := r.significance_score,
              objects_involved := [obj.name],
              properties_involved := new_properties,
              timestamp := tick, discoverer_id := discoverer_id })
        else
          detect_property_discovery_aux st r tick discoverer_id rest

/-- `DiscoveryDetector._detect_property_discovery`. -/
def detect_property_discovery (st : DetectorState) (r : CombinationResult)
    (tick : Nat) (discoverer_id : Option String) : DetectorState × Option Discovery :=
  detect_property_discovery_aux st r tick discoverer_id r.modified_objects

/-- The body of `DiscoveryDetector._detect_tool_discovery`. -/
def detect_tool_discovery_aux (st : DetectorState) (r : CombinationResult)
    (tick : Nat) (discoverer_id : Option String) :
    List UniverseObject → DetectorState × Option Discovery
  | [] => (st, none)
  | new_obj :: rest =>
      if is_functional_tool new_obj then
        let discovery_id := "TOOL_" ++ pad4 st.next_discovery_id
        let st := { st with next_discovery_id := st.next_discovery_id + 1 }
        (st, some
          { id := discovery_id, discovery_type := .tool_creation,
            name := "Tool Creation: " ++ new_obj.name,
            description := "Functional tool created with capabilities: " ++
              describe_tool_capabilities new_obj,
            significance := qAdd r.significance_score 5,
            objects_involved := (r.modified_objects ++ r.destroyed_objects).map (fun o => o.name),
            properties_involved := new_obj.properties.map (fun p => p.name),
            timestamp := tick, discoverer_id := discoverer_id })
      else
        detect_tool_discovery_aux st r tick discoverer_id rest

/-- `DiscoveryDetector._detect_tool_discovery`. -/
def detect_tool_discovery (st : DetectorState) (r : CombinationResult)
    (tick : Nat) (discoverer_id : Option String) : DetectorState × Option Discovery :=
  detect_tool_discovery_aux st r tick discoverer_id r.new_objects

/-- The last `n` elements of a list (Python `l[-n:]`). -/
def lastN (n : Nat) (l : List α) : List α := l.drop (l.length - n)

/-- `DiscoveryDetector._update_knowledge_base` applied to a freshly made
discovery (the dict stores the same mutable object, so the update is applied
before the discovery is filed and returned). -/
def update_knowledge_base (st : DetectorState) (d : Discovery) : Discovery :=
  let d :=
    if st.interaction_chains.length > 0 then
      { d with interaction_sequence := lastN 5 st.interaction_chains }
    else d
  if qMul st.significance_threshold 2 < d.significance then
    { d with discovery_type := .breakthrough }
  else d

/-- `DiscoveryDetector.analyze_interaction_result`. -/
def analyze_interaction_result (st : DetectorState) (r : CombinationResult)
    (tick : Nat) (discoverer_id : Option String) : DetectorState × Option Discovery :=
  if ¬ r.success ∨ r.significance_score < st.significance_threshold then (st, none)
  else
    let step1 :=
      if ¬ r.new_objects.isEmpty then detect_new_object_discovery st r tick discoverer_id
      else if ¬ r.modified_objects.isEmpty then detect_property_discovery st r tick discoverer_id
      else (st, none)
    let st := step1.1
    let step2 :=
      match step1.2 with
      | some d => (st, some d)
      | none =>
          if is_tool_creation r then detect_tool_discovery st r tick discoverer_id
          else (st, none)
    let st := step2.1
    match step2.2 with
    | none => (st, none)
    | some d =>
        let d := update_knowledge_base st d
        ({ st with discoveries := st.discoveries ++ [d] }, some d)

/-- `DiscoveryDetector.record_interaction_chain` (ring buffer capped at 20). -/
def record_interaction_chain (st : DetectorState) (d : String) : DetectorState :=
  let chains := st.interaction_chains ++ [d]
  { st with interaction_chains := if 20 < chains.length then lastN 20 chains else chains }

/-! ## `brain.py`: neural networks and cell brains

`NeuralNetwork.forward` is a floating-point `tanh` network; the organisms
consume it only through `decide_action`, whose `(dx, dy)` outcome is supplied
as an oracle value in the world embedding.  The genetic operators
(`mutate`, crossover, copy), which the claims are about, are embedded
exactly. -/

/-- `NeuralNetwork`: fixed layer sizes plus the flat weight vector. -/
structure NeuralNetwork where
  input_size : Nat := 10
  hidden_size : Nat := 12
  output_size : Nat := 9
  weights : List ℚ
deriving DecidableEq

/-- `NeuralNetwork.total_weights`. -/
def NeuralNetwork.total_weights (n : NeuralNetwork) : Nat :=
  n.input_size * n.hidden_size + n.hidden_size + n.hidden_size * n.output_size + n.output_size

/-- `NeuralNetwork(weights=ws)` with default layer sizes. -/
def NeuralNetwork.ofWeights (ws : List ℚ) : NeuralNetwork := { weights := ws }

/-- `NeuralNetwork.copy` (a fresh object with an equal weight list: the same
value). -/
def NeuralNetwork.copy (n : NeuralNetwork) : NeuralNetwork := n

/-- The loop body of `NeuralNetwork.mutate`: `orc i = (perturb?, draw)`
models `random.random() < mutation_rate` and
`random.uniform(-strength, strength)` for weight `i`. -/
def mutateWeightsAux (orc : Nat → Bool × ℚ) : Nat → List ℚ → List ℚ
  | _, [] => []
  | i, w :: rest =>
      let w' := if (orc i).1 then max (-2) (min 2 (qAdd w (orc i).2)) else w
      w' :: mutateWeightsAux orc (i + 1) rest

/-- `NeuralNetwork.mutate`: each selected weight is perturbed by its draw and
clamped into `[-2, 2]`; unselected weights are untouched. -/
def NeuralNetwork.mutate (n : NeuralNetwork) (orc : Nat → Bool × ℚ) : NeuralNetwork :=
  { n with weights := mutateWeightsAux orc 0 n.weights }

/-- `CellBrain`. -/
structure CellBrain where
  network : NeuralNetwork
  fitness : ℚ := 0
  age_at_death : Nat := 0
  energy_gained : ℤ := 0
  offspring_count : Nat := 0
deriving DecidableEq

/-- `CellBrain(network)`. -/
def CellBrain.ofNetwork (n : NeuralNetwork) : CellBrain := { network := n }

/-- Placeholder brain for unreachable branches (`_select_parent_weighted` on
an empty elite list). -/
def dummy_brain : CellBrain := { network := { weights := [] } }

/-- The loop body of `CellBrain._crossover`: gene `i` comes from `self` when
`bits i` is true (`random.random() < 0.5`), from the partner otherwise. -/
def crossoverAux (bits : Nat → Bool) (partner : List ℚ) : Nat → List ℚ → List ℚ
  | _, [] => []
  | i, w :: rest =>
      (if bits i then w else partner.getD i 0) :: crossoverAux bits partner (i + 1) rest

/-- `CellBrain._crossover` (the child is `NeuralNetwork(weights=...)` with
default layer sizes, as in the source). -/
def CellBrain.crossover (self : CellBrain) (partner_network : NeuralNetwork)
    (bits : Nat → Bool) : NeuralNetwork :=
  NeuralNetwork.ofWeights (crossoverAux bits partner_network.weights 0 self.network.weights)

/-- `CellBrain.reproduce`: returns the child and the parent with its
`offspring_count` incremented. -/
def CellBrain.reproduce (self : CellBrain) (partner : Option CellBrain)
    (cross_bits : Nat → Bool) (mutOrc : Nat → Bool × ℚ) : CellBrain × CellBrain :=
  let child_network :=
    match partner with
    | none => self.network.copy.mutate mutOrc
    | some p => (self.crossover p.network cross_bits).mutate mutOrc
  (CellBrain.ofNetwork child_network,
   { self with offspring_count := self.offspring_count + 1 })

/-- `CellBrain.record_energy_gain`. -/
def CellBrain.record_energy_gain (b : CellBrain) (amount : ℤ) : CellBrain :=
  { b with energy_gained := b.energy_gained + amount }

/-- `CellBrain.record_death`. -/
def CellBrain.record_death (b : CellBrain) (age : Nat) : CellBrain :=
  { b with age_at_death := age }

/-! ## `evolution.py`: the genetic algorithm

`brain.offspring_count ** 1.5` is a floating-point power and is irrational
for most counts, so it cannot be a fixed rational; the engine embedding is
parametrised over the function `pow15 : ℕ → ℚ` computing it.  Every theorem
below holds for all `pow15`, and the concrete scenarios use counts 0 and 1,
where `n ** 1.5 = n` exactly (also in IEEE floats). -/

/-- One generation record of `fitness_history`. -/
structure GenStats where
  generation : Nat
  population : Nat
  fitness_avg : ℚ
  fitness_max : ℚ
  fitness_min : ℚ
  age_avg : ℚ
  age_max : Nat
  energy_avg : ℚ
  offspring_avg : ℚ
  offspring_total : Nat
deriving DecidableEq

/-- `EvolutionEngine` state (construction defaults). -/
structure EvolutionEngineState where
  mutation_rate : ℚ := mkRat 1 10
  mutation_strength : ℚ := mkRat 1 5
  elite_percentage : ℚ := mkRat 1 5
  crossover_rate : ℚ := mkRat 7 10
  generation : Nat := 0
  fitness_history : List GenStats := []
  population_history : List Nat := []
deriving DecidableEq

/-- Sum of a list of rationals through `qAdd`. -/
def qSum (l : List ℚ) : ℚ := l.foldl qAdd 0

/-- `EvolutionEngine._calculate_raw_fitness`. -/
def calculate_raw_fitness (pow15 : Nat → ℚ) (b : CellBrain) : ℚ :=
  let fitness : ℚ := 0
  let fitness := qAdd fitness (qMul (b.age_at_death : ℚ) 2)
  let fitness := qAdd fitness (qMul (b.energy_gained : ℚ) (mkRat 1 10))
  let fitness := qAdd fitness (qMul (pow15 b.offspring_count) 20)
  let fitness :=
    if 0 < b.age_at_death then
      qAdd fitness (qMul (qDiv (b.energy_gained : ℚ) (b.age_at_death : ℚ)) 5)
    else fitness
  max 0 fitness

/-- `EvolutionEngine._calculate_fitness`: raw scores, then min-max
normalization — but only when at least two distinct raw values exist
(`len(set(fitnesses)) > 1`); otherwise the raw scores are left as they
are. -/
def calculate_fitness (pow15 : Nat → ℚ) (brains : List CellBrain) : List CellBrain :=
  if brains.isEmpty then brains
  else
    let brains := brains.map (fun b => { b with fitness := calculate_raw_fitness pow15 b })
    let fitnesses := brains.map (fun b => b.fitness)
    if 1 < fitnesses.dedup.length then
      let min_fit := pyMin fitnesses
      let max_fit := pyMax fitnesses
      brains.map (fun b =>
        { b with fitness :=
            if min_fit < max_fit then qDiv (qSub b.fitness min_fit) (qSub max_fit min_fit)
            else mkRat 1 2 })
    else brains

/-- `EvolutionEngine._select_elite`: stable sort by fitness descending, take
`max(1, int(len * elite_percentage))`. -/
def select_elite (eng : EvolutionEngineState) (brains : List CellBrain) : List CellBrain :=
  let sorted_brains := pySorted (fun a b => decide (b.fitness ≤ a.fitness)) brains
  let elite_count := max 1 (pyInt (qMul (sorted_brains.length : ℚ) eng.elite_percentage))
  sorted_brains.take elite_count.toNat

/-- The cumulative-weight scan of `_select_parent_weighted`; returns the
index of the chosen elite brain (the last index as a fallback). -/
def weightedScanIdx (draw : ℚ) : ℚ → Nat → List ℚ → Nat
  | _, i, [] => i - 1
  | current, i, w :: rest =>
      let current := qAdd current w
      if draw ≤ current then i else weightedScanIdx draw current (i + 1) rest

/-- `EvolutionEngine._select_parent_weighted`, returning the index into the
elite list (`zero_choice` is the `random.choice` draw of the
all-zero-weight branch; the empty-list branch is unreachable from
`_generate_offspring`). -/
def select_parent_weighted_idx (elite : List CellBrain) (draw : ℚ) (zero_choice : Nat) : Nat :=
  if elite.isEmpty then 0
  else
    let weights := elite.map (fun b => qAdd b.fitness (mkRat 1 10))
    let total_weight := qSum weights
    if total_weight = 0 then zero_choice % elite.length
    else weightedScanIdx draw 0 0 weights

/-- Oracle for one iteration of the offspring loop. -/
structure OffStep where
  roll : ℚ := 1
  pair_a : Nat := 0
  pair_b : Nat := 0
  weighted_draw : ℚ := 0
  zero_choice : Nat := 0
  cross_bits : Nat → Bool := fun _ => true
  mut_oracle : Nat → Bool × ℚ := fun _ => (false, 0)

/-- The `while len(offspring) < target_population` loop of
`_generate_offspring`.  Each iteration appends exactly one child, so fuel
`target_population` suffices; `random.sample(elite_brains, 2)` is modelled
by two oracle indices decoded into a pair of distinct positions.  The
parent chosen for reproduction has its `offspring_count` incremented in
place, hence the elite list is threaded through the loop. -/
def generate_offspring_loop (eng : EvolutionEngineState) (steps : Nat → OffStep)
    (target_population : Nat) :
    Nat → Nat → List CellBrain → List CellBrain → List CellBrain
  | 0, _, _, offspring => offspring
  | fuel + 1, k, elite, offspring =>
      if offspring.length < target_population then
        let step := steps k
        if step.roll < eng.crossover_rate ∧ 2 ≤ elite.length then
          let i := step.pair_a % elite.length
          let j0 := step.pair_b % (elite.length - 1)
          let j := if i ≤ j0 then j0 + 1 else j0
          let parent1 := elite.getD i dummy_brain
          let parent2 := elite.getD j dummy_brain
          let rep := parent1.reproduce (some parent2) step.cross_bits step.mut_oracle
          generate_offspring_loop eng steps target_population fuel (k + 1)
            (elite.set i rep.2) (offspring ++ [rep.1])
        else
          let pi := select_parent_weighted_idx elite step.weighted_draw step.zero_choice
          let parent := elite.getD pi dummy_brain
          let rep := parent.reproduce none step.cross_bits step.mut_oracle
          generate_offspring_loop eng steps target_population fuel (k + 1)
            (elite.set pi rep.2) (offspring ++ [rep.1])
      else offspring

/-- `EvolutionEngine._generate_offspring`: verbatim copies of every elite
network first, then generated children, truncated to the target size. -/
def generate_offspring (eng : EvolutionEngineState) (steps : Nat → OffStep)
    (elite_brains : List CellBrain) (target_population : Nat) : List CellBrain :=
  let offspring := elite_brains.map (fun b => CellBrain.ofNetwork b.network.copy)
  let offspring :=
    generate_offspring_loop eng steps target_population target_population 0 elite_brains offspring
  offspring.take target_population

/-- `EvolutionEngine._record_generation_stats`. -/
def record_generation_stats (eng : EvolutionEngineState) (brains : List CellBrain) :
    EvolutionEngineState :=
  if brains.isEmpty then eng
  else
    let fitnesses := brains.map (fun b => b.fitness)
    let ages := brains.map (fun b => b.age_at_death)
    let energy_gains := brains.map (fun b => (b.energy_gained : ℚ))
    let offspring_counts := brains.map (fun b => b.offspring_count)
    let stats : GenStats :=
      { generation := eng.generation,
        population := brains.length,
        fitness_avg := qDiv (qSum fitnesses) (brains.length : ℚ),
        fitness_max := pyMax fitnesses,
        fitness_min := pyMin fitnesses,
        age_avg := if ages.isEmpty then 0
                   else qDiv ((ages.foldl (fun a b => a + b) 0 : ℕ) : ℚ) (ages.length : ℚ),
        age_max := if ages.isEmpty then 0 else ages.foldl max 0,
        energy_avg := if energy_gains.isEmpty then 0
                      else qDiv (qSum energy_gains) (energy_gains.length : ℚ),
        offspring_avg := if offspring_counts.isEmpty then 0
                         else qDiv ((offspring_counts.foldl (fun a b => a + b) 0 : ℕ) : ℚ)
                                   (offspring_counts.length : ℚ),
        offspring_total := offspring_counts.foldl (fun a b => a + b) 0 }
    { eng with fitness_history := eng.fitness_history ++ [stats],
               population_history := eng.population_history ++ [brains.length] }

/-- Oracle for one `evolve_population` call: `fresh i` is the random weight
vector of the `i`-th `CellBrain()` of the empty-pool branch, `steps` the
offspring-loop draws. -/
structure EvoPopOracle where
  fresh : Nat → List ℚ := fun _ => []
  steps : Nat → OffStep := fun _ => {}

/-- `EvolutionEngine.evolve_population`. -/
def evolve_population (eng : EvolutionEngineState) (pow15 : Nat → ℚ) (orc : EvoPopOracle)
    (dead_brains : List CellBrain) (target_population : Nat) :
    EvolutionEngineState × List CellBrain :=
  if dead_brains.isEmpty then
    (eng, (List.range target_population).map
      (fun i => CellBrain.ofNetwork (NeuralNetwork.ofWeights (orc.fresh i))))
  else
    let brains := calculate_fitness pow15 dead_brains
    let eng := record_generation_stats eng brains
    let elite_brains := select_elite eng brains
    let new_population := generate_offspring eng orc.steps elite_brains target_population
    ({ eng with generation := eng.generation + 1 }, new_population)

/-! ## `cells.py` and `world.py`: organisms and the tick loop

Cells are Python objects mutated in place and aliased from the grid and from
`cells_to_update` / `cells_to_remove`; the embedding gives every cell a
numeric identity (`cid`), stores current cell states in a world-owned heap,
and keeps only identities in the grid.  The global `INTERACTION_ENGINE` and
`DISCOVERY_DETECTOR` singletons are carried as world components. -/

/-- The species of a cell (`Planta` / `Herbivoro` / `Carnivoro` subclasses,
flattened into one record plus this tag; `hasattr(cell, "energy")` is
`species ≠ planta`). -/
inductive Species where
  | planta | herbivoro | carnivoro
deriving DecidableEq, BEq

/-- A `Celula` object.  Animal fields (`energy`, `energy_per_prey` — the
source's `energy_per_plant` / `energy_per_herbivore` —,
`reproduction_threshold`) are meaningful when `species ≠ planta`; plant
fields (`reproduction_age`, `max_age`) when `species = planta`. -/
structure Celula where
  cid : Nat
  species : Species
  x : ℤ
  y : ℤ
  age : Nat := 0
  brain : CellBrain
  last_energy : ℤ := 0
  inventory : List UniverseObject := []
  known_discoveries : List String := []
  experimentation_cooldown : Nat := 0
  curiosity : ℚ := mkRat 1 2
  energy : ℤ := 0
  energy_per_prey : ℤ := 0
  reproduction_threshold : ℤ := 0
  reproduction_age : Nat := 0
  max_age : Nat := 0
deriving DecidableEq

/-- `Planta(x, y, reproduction_age=10, max_age=50)`. -/
def mkPlanta (cid : Nat) (x y : ℤ) (brain : CellBrain) (curiosity : ℚ)
    (reproduction_age : Nat := 10) (max_age : Nat := 50) : Celula :=
  { cid := cid, species := .planta, x := x, y := y, brain := brain,
    curiosity := curiosity, reproduction_age := reproduction_age, max_age := max_age }

/-- `Herbivoro(x, y, brain, initial_energy=20, energy_per_plant=15,
reproduction_threshold=30)`. -/
def mkHerbivoro (cid : Nat) (x y : ℤ) (brain : CellBrain) (curiosity : ℚ)
    (initial_energy : ℤ := 20) (energy_per_plant : ℤ := 15)
    (reproduction_threshold : ℤ := 30) : Celula :=
  { cid := cid, species := .herbivoro, x := x, y := y, brain := brain,
    curiosity := curiosity, energy := initial_energy, last_energy := initial_energy,
    energy_per_prey := energy_per_plant, reproduction_threshold := reproduction_threshold }

/-- `Carnivoro(x, y, brain, initial_energy=30, energy_per_herbivore=25,
reproduction_threshold=50)`. -/
def mkCarnivoro (cid : Nat) (x y : ℤ) (brain : CellBrain) (curiosity : ℚ)
    (initial_energy : ℤ := 30) (energy_per_herbivore : ℤ := 25)
    (reproduction_threshold : ℤ := 50) : Celula :=
  { cid := cid, species := .carnivoro, x := x, y := y, brain := brain,
    curiosity := curiosity, energy := initial_energy, last_energy := initial_energy,
    energy_per_prey := energy_per_herbivore, reproduction_threshold := reproduction_threshold }

/-- `Celula.should_die` (overridden per species). -/
def should_die (c : Celula) : Bool :=
  match c.species with
  | .planta => c.max_age ≤ c.age
  | _ => c.energy ≤ 0

/-- `CellBrain.update_fitness` (plants have no `energy` attribute). -/
def CellBrain.update_fitness (b : CellBrain) (c : Celula) : CellBrain :=
  let base : ℚ := (c.age : ℚ)
  let base :=
    if c.species ≠ Species.planta then
      qAdd (qAdd base (qMul (c.energy : ℚ) (mkRat 1 10)))
        (qMul (b.energy_gained : ℚ) (mkRat 1 20))
    else base
  let base := qAdd base ((b.offspring_count * 10 : ℕ) : ℚ)
  { b with fitness := base }

/-- `World` (with the process-global engine and detector singletons carried
alongside, and the object store `heap` for cells). -/
structure World where
  width : Nat
  height : Nat
  grid : List (Option Nat)
  tick : Nat := 0
  step_count : Nat := 0
  evolution_enabled : Bool := true
  evolution_engine : EvolutionEngineState := {}
  dead_herbivores : List CellBrain := []
  dead_carnivores : List CellBrain := []
  generation_length : Nat := 500
  scattered_materials : List ((ℤ × ℤ) × UniverseObject) := []
  heap : List (Nat × Celula) := []
  next_id : Nat := 0
  engine : EngineState := {}
  detector : DetectorState := {}
deriving DecidableEq

/-- Row-major index of an in-bounds coordinate. -/
def World.idx (w : World) (x y : ℤ) : Nat := (y * w.width + x).toNat

/-- `0 <= x < width and 0 <= y < height`. -/
def World.inBounds (w : World) (x y : ℤ) : Bool :=
  decide (0 ≤ x) && decide (x < w.width) && decide (0 ≤ y) && decide (y < w.height)

/-- `self.grid[y][x]` for in-bounds coordinates (`none` out of bounds, as in
`get_cell`). -/
def World.gridGet (w : World) (x y : ℤ) : Option Nat :=
  if w.inBounds x y then w.grid.getD (w.idx x y) none else none

/-- `self.grid[y][x] = v` (in-bounds writes only; the source always checks
bounds before writing). -/
def World.gridSet (w : World) (x y : ℤ) (v : Option Nat) : World :=
  if w.inBounds x y then { w with grid := w.grid.set (w.idx x y) v } else w

/-- Store a cell object under its identity. -/
def heapPut : List (Nat × Celula) → Celula → List (Nat × Celula)
  | [], c => [(c.cid, c)]
  | (k, v) :: rest, c => if k == c.cid then (k, c) :: rest else (k, v) :: heapPut rest c

/-- Current state of the cell object with identity `cid`. -/
def World.heapGet (w : World) (cid : Nat) : Option Celula :=
  (w.heap.find? (fun e => e.1 == cid)).map (fun e => e.2)

/-- Write a mutated cell object back into the store. -/
def World.heapSet (w : World) (c : Celula) : World :=
  { w with heap := heapPut w.heap c }

/-- The species of the occupant of a grid cell, if any (`isinstance`
dispatch on `world.grid[y][x]`). -/
def World.occupantSpecies (w : World) (x y : ℤ) : Option Species :=
  (w.gridGet x y).bind (fun cid => (w.heapGet cid).map (fun c => c.species))

/-- The nine `(dx, dy)` offsets of `for dx in [-1, 0, 1]: for dy in
[-1, 0, 1]`, in iteration order (centre included, as in
`find_basic_materials`). -/
def mooreOffsetsWithCenter : List (ℤ × ℤ) :=
  [(-1, -1), (-1, 0), (-1, 1), (0, -1), (0, 0), (0, 1), (1, -1), (1, 0), (1, 1)]

/-- The same iteration with the `dx == 0 and dy == 0` skip. -/
def mooreOffsets : List (ℤ × ℤ) :=
  [(-1, -1), (-1, 0), (-1, 1), (0, -1), (0, 1), (1, -1), (1, 0), (1, 1)]

/-- `scattered_materials` lookup. -/
def scatteredFind (w : World) (pos : ℤ × ℤ) : Option UniverseObject :=
  (w.scattered_materials.find? (fun e => e.1 == pos)).map (fun e => e.2)

/-- `del scattered_materials[pos]`. -/
def scatteredRemove (w : World) (pos : ℤ × ℤ) : World :=
  { w with scattered_materials := w.scattered_materials.filter (fun e => ¬ e.1 == pos) }

/-- Oracle for the random draws of one cell's turn: `nearby_draws` are the
successive 30%-pickup rolls of `find_basic_materials`, `fallback_draw` and
`fallback_choice` its 5% fallback, `child_net` the random weights of a plant
offspring's fresh `CellBrain()`, `curiosity_draw` the experimentation roll,
`pick1`/`pick2` the inventory picks, `decide_delta` the outcome of
`CellBrain.decide_action` (a deterministic floating-point forward pass,
supplied as data), `repro_choice` the offspring cell choice,
`child_curiosity` the offspring's `random.uniform(0.1, 0.9)` and `child_mut`
the mutation draws of `CellBrain.reproduce`. -/
structure CellOracle where
  nearby_draws : List ℚ := []
  fallback_draw : ℚ := 1
  fallback_choice : Nat := 0
  child_net : List ℚ := []
  curiosity_draw : ℚ := 1
  pick1 : Nat := 0
  pick2 : Nat := 0
  interact_oracle : InteractOracle := {}
  decide_delta : ℤ × ℤ := (0, 0)
  repro_choice : Nat := 0
  child_curiosity : ℚ := mkRat 1 2
  child_mut : Nat → Bool × ℚ := fun _ => (false, 0)

/-- Placeholder object for unreachable `random.choice` defaults. -/
def dummy_obj : UniverseObject := { oid := 0, name := "" }

/-- The `for dx ... for dy ...` scan of `find_basic_materials` over adjacent
positions: each position that is in bounds and holds a material consumes one
30% draw; the first success returns the position and its material. -/
def find_nearby_material (w : World) (c : Celula) :
    List ℚ → List (ℤ × ℤ) → Option ((ℤ × ℤ) × UniverseObject)
  | _, [] => none
  | draws, (dx, dy) :: rest =>
      let pos := (c.x + dx, c.y + dy)
      if w.inBounds pos.1 pos.2 then
        match scatteredFind w pos with
        | some m =>
            if draws.headD 1 < mkRat 3 10 then some (pos, m)
            else find_nearby_material w c draws.tail rest
        | none => find_nearby_material w c draws rest
      else find_nearby_material w c draws rest

/-- `Celula.find_basic_materials`. -/
def find_basic_materials (w : World) (c : Celula) (orc : CellOracle) : World × Celula :=
  if c.inventory.length < 3 then
    match scatteredFind w (c.x, c.y) with
    | some material =>
        (scatteredRemove w (c.x, c.y),
         { c with inventory := c.inventory ++ [material] })
    | none =>
        match find_nearby_material w c orc.nearby_draws mooreOffsetsWithCenter with
        | some (pos, material) =>
            (scatteredRemove w pos, { c with inventory := c.inventory ++ [material] })
        | none =>
            if c.inventory.length < 2 ∧ orc.fallback_draw < mkRat 1 20 then
              let basic_materials :=
                [ mkUniverseObject w.next_id "Piedra" ["es_duro"],
                  mkUniverseObject (w.next_id + 1) "Palo" ["es_organico", "es_fragil"],
                  mkUniverseObject (w.next_id + 2) "Hoja" ["es_organico", "es_flexible"] ]
              let material := pyChoiceD orc.fallback_choice basic_materials dummy_obj
              ({ w with next_id := w.next_id + 3 },
               { c with inventory := c.inventory ++ [material] })
            else (w, c)
  else (w, c)

/-- `Celula.share_discovery_with_neighbors`: every in-bounds Moore neighbor
not yet aware of the discovery learns its id.  The source's sample-object
branch is guarded by `hasattr(discovery, "result")`, which is always false
(no code path ever sets a `result` attribute on a `Discovery`), so no object
is ever shared. -/
def share_discovery_with_neighbors (w : World) (c : Celula) (discovery : Discovery) : World :=
  mooreOffsets.foldl
    (fun w off =>
      let nx := c.x + off.1
      let ny := c.y + off.2
      if w.inBounds nx ny then
        match (w.gridGet nx ny).bind w.heapGet with
        | some neighbor =>
            if ¬ neighbor.known_discoveries.contains discovery.id then
              w.heapSet { neighbor with
                known_discoveries := neighbor.known_discoveries ++ [discovery.id] }
            else w
        | none => w
      else w)
    w

/-- `Celula.attempt_discovery`.  The `"combine"` action always parses, so
`interact` cannot fail on this path; the cooldown is set to 5 whenever the
outer experimentation condition fires, win or lose. -/
def attempt_discovery (w : World) (c : Celula) (orc : CellOracle) : World × Celula :=
  if c.experimentation_cooldown = 0 ∧ orc.curiosity_draw < c.curiosity ∧
      2 ≤ c.inventory.length then
    let obj1 := pyChoiceD orc.pick1 c.inventory dummy_obj
    let obj2 := pyChoiceD orc.pick2 c.inventory dummy_obj
    let wc :=
      if obj1.oid ≠ obj2.oid then
        let out := interact w.engine orc.interact_oracle obj1 obj2 "combine" none
        let w := { w with engine := out.2 }
        match out.1 with
        | Except.error _ => (w, c)
        | Except.ok (result, obj1', obj2') =>
            let c := { c with inventory := c.inventory.map (fun o =>
                if o.oid == obj1'.oid then obj1'
                else if o.oid == obj2'.oid then obj2' else o) }
            if result.success then
              let an := analyze_interaction_result w.detector result w.step_count
                (some ("Cell_" ++ toString c.cid))
              let w := { w with detector := an.1 }
              match an.2 with
              | some discovery =>
                  if ¬ c.known_discoveries.contains discovery.id then
                    let c := { c with known_discoveries := c.known_discoveries ++ [discovery.id] }
                    let c :=
                      if ¬ result.new_objects.isEmpty then
                        { c with inventory := c.inventory ++ result.new_objects }
                      else c
                    let c := { c with brain := c.brain.record_energy_gain 10 }
                    let w := share_discovery_with_neighbors w c discovery
                    (w, c)
                  else (w, c)
              | none => (w, c)
            else (w, c)
      else (w, c)
    (wc.1, { wc.2 with experimentation_cooldown := 5 })
  else (w, c)

/-- `Celula.update` (the base class: age, cooldown decrement, experiment). -/
def celula_update (w : World) (c : Celula) (orc : CellOracle) :
    World × Celula × Option Celula :=
  let c := { c with age := c.age + 1 }
  let c :=
    if 0 < c.experimentation_cooldown then
      { c with experimentation_cooldown := c.experimentation_cooldown - 1 }
    else c
  let out := attempt_discovery w c orc
  (out.1, out.2, none)

/-- `_get_adjacent_empty_positions` (plants) /
the adjacent-empty scan of `_brain_reproduce` (animals). -/
def adjacent_empty_positions (w : World) (c : Celula) : List (ℤ × ℤ) :=
  mooreOffsets.filterMap (fun off =>
    let nx := c.x + off.1
    let ny := c.y + off.2
    if w.inBounds nx ny ∧ w.gridGet nx ny = none then some (nx, ny) else none)

/-- `Planta.update` (note: it overrides the base `update` and neither
decrements the cooldown nor experiments — it only ages and reproduces). -/
def planta_update (w : World) (c : Celula) (orc : CellOracle) :
    World × Celula × Option Celula :=
  let c := { c with age := c.age + 1 }
  if c.reproduction_age ≤ c.age ∧ c.age % c.reproduction_age = 0 then
    let positions := adjacent_empty_positions w c
    if ¬ positions.isEmpty then
      let pos := pyChoiceD orc.repro_choice positions (0, 0)
      let offspring := mkPlanta w.next_id pos.1 pos.2
        (CellBrain.ofNetwork (NeuralNetwork.ofWeights orc.child_net))
        orc.child_curiosity c.reproduction_age c.max_age
      let w := { w with next_id := w.next_id + 1 }
      let w := w.heapSet offspring
      (w, c, some offspring)
    else (w, c, none)
  else (w, c, none)

/-- `Herbivoro._brain_move_and_eat`: eat a plant in the chosen cell and move
into it, or move into an empty cell; note that the vacating write
`grid[self.y][self.x] = None` uses the mover's current coordinates,
whatever that grid cell holds by now. -/
def brain_move_and_eat (w : World) (c : Celula) (orc : CellOracle) : World × Celula :=
  let dxy := orc.decide_delta
  let new_x := c.x + dxy.1
  let new_y := c.y + dxy.2
  if ¬ w.inBounds new_x new_y then (w, c)
  else
    let target_cell := w.gridGet new_x new_y
    let is_plant := w.occupantSpecies new_x new_y = some Species.planta
    let wc :=
      if is_plant then
        let w := w.gridSet new_x new_y none
        let old_energy := c.energy
        let c := { c with energy := c.energy + c.energy_per_prey }
        let c := { c with brain := c.brain.record_energy_gain (c.energy - old_energy) }
        (w, c)
      else (w, c)
    let w := wc.1
    let c := wc.2
    if target_cell = none ∨ is_plant then
      let w := w.gridSet c.x c.y none
      let c := { c with x := new_x, y := new_y }
      let w := w.gridSet c.x c.y (some c.cid)
      (w, c)
    else (w, c)

/-- `Carnivoro._brain_hunt_and_eat` (same shape with herbivore prey). -/
def brain_hunt_and_eat (w : World) (c : Celula) (orc : CellOracle) : World × Celula :=
  let dxy := orc.decide_delta
  let new_x := c.x + dxy.1
  let new_y := c.y + dxy.2
  if ¬ w.inBounds new_x new_y then (w, c)
  else
    let target_cell := w.gridGet new_x new_y
    let is_herb := w.occupantSpecies new_x new_y = some Species.herbivoro
    let wc :=
      if is_herb then
        let w := w.gridSet new_x new_y none
        let old_energy := c.energy
        let c := { c with energy := c.energy + c.energy_per_prey }
        let c := { c with brain := c.brain.record_energy_gain (c.energy - old_energy) }
        (w, c)
      else (w, c)
    let w := wc.1
    let c := wc.2
    if target_cell = none ∨ is_herb then
      let w := w.gridSet c.x c.y none
      let c := { c with x := new_x, y := new_y }
      let w := w.gridSet c.x c.y (some c.cid)
      (w, c)
    else (w, c)

/-- `Herbivoro._brain_reproduce` / `Carnivoro._brain_reproduce`: halve the
energy, spawn the offspring (with a brain from `CellBrain.reproduce()`) into
a random adjacent empty cell. -/
def brain_reproduce (w : World) (c : Celula) (orc : CellOracle) :
    World × Celula × Option Celula :=
  let positions := adjacent_empty_positions w c
  if ¬ positions.isEmpty then
    let c := { c with energy := Int.fdiv c.energy 2 }
    let pos := pyChoiceD orc.repro_choice positions (0, 0)
    let rep := c.brain.reproduce none (fun _ => true) orc.child_mut
    let c := { c with brain := rep.2 }
    let offspring :=
      match c.species with
      | .carnivoro =>
          mkCarnivoro w.next_id pos.1 pos.2 rep.1 orc.child_curiosity
            (Int.fdiv c.energy 2) c.energy_per_prey c.reproduction_threshold
      | _ =>
          mkHerbivoro w.next_id pos.1 pos.2 rep.1 orc.child_curiosity
            (Int.fdiv c.energy 2) c.energy_per_prey c.reproduction_threshold
    let w := { w with next_id := w.next_id + 1 }
    let w := w.heapSet offspring
    (w, c, some offspring)
  else (w, c, none)

/-- `Herbivoro.update`. -/
def herbivoro_update (w : World) (c : Celula) (orc : CellOracle) :
    World × Celula × Option Celula :=
  let c := { c with age := c.age + 1, energy := c.energy - 1 }
  let energy_gained := c.energy - c.last_energy
  let c :=
    if 0 < energy_gained then { c with brain := c.brain.record_energy_gain energy_gained }
    else c
  let c := { c with last_energy := c.energy }
  if c.energy ≤ 0 then
    (w, { c with brain := c.brain.record_death c.age }, none)
  else
    let fm := find_basic_materials w c orc
    let ad := attempt_discovery fm.1 fm.2 orc
    let mv := brain_move_and_eat ad.1 ad.2 orc
    let w := mv.1
    let c := mv.2
    if c.reproduction_threshold ≤ c.energy then brain_reproduce w c orc
    else (w, c, none)

/-- `Carnivoro.update` (upkeep 2, herbivore prey). -/
def carnivoro_update (w : World) (c : Celula) (orc : CellOracle) :
    World × Celula × Option Celula :=
  let c := { c with age := c.age + 1, energy := c.energy - 2 }
  let energy_gained := c.energy - c.last_energy
  let c :=
    if 0 < energy_gained then { c with brain := c.brain.record_energy_gain energy_gained }
    else c
  let c := { c with last_energy := c.energy }
  if c.energy ≤ 0 then
    (w, { c with brain := c.brain.record_death c.age }, none)
  else
    let fm := find_basic_materials w c orc
    let ad := attempt_discovery fm.1 fm.2 orc
    let mv := brain_hunt_and_eat ad.1 ad.2 orc
    let w := mv.1
    let c := mv.2
    if c.reproduction_threshold ≤ c.energy then brain_reproduce w c orc
    else (w, c, none)

/-- `cell.update(self)` dispatched on the dynamic class of the cell. -/
def cell_update (w : World) (c : Celula) (orc : CellOracle) :
    World × Celula × Option Celula :=
  match c.species with
  | .planta => planta_update w c orc
  | .herbivoro => herbivoro_update w c orc
  | .carnivoro => carnivoro_update w c orc

/-- The row-major scan building `cells_to_update`. -/
def World.scan_cells (w : World) : List Nat :=
  (List.range w.height).flatMap (fun y =>
    (List.range w.width).filterMap (fun x => w.grid.getD (y * w.width + x) none))

/-- Accumulator of the per-tick pass of `World.update`. -/
structure PassState where
  w : World
  new_cells : List Celula := []
  cells_to_remove : List Nat := []

/-- The `for cell in cells_to_update` pass of `World.update`: skip cells
already in `cells_to_remove`, run the update, collect deaths (recording
fitness and pushing the brain into the species' dead pool when evolution is
enabled) and buffered offspring. -/
def process_cells (oracles : Nat → CellOracle) : List Nat → PassState → PassState
  | [], s => s
  | cid :: rest, s =>
      if s.cells_to_remove.contains cid then process_cells oracles rest s
      else
        match s.w.heapGet cid with
        | none => process_cells oracles rest s
        | some cell =>
            let out := cell_update s.w cell (oracles cid)
            let cell := out.2.1
            let w := out.1.heapSet cell
            let s2 :=
              if should_die cell then
                if w.evolution_enabled then
                  let brain := cell.brain.update_fitness cell
                  let cell := { cell with brain := brain }
                  let w := w.heapSet cell
                  let w :=
                    match cell.species with
                    | .herbivoro => { w with dead_herbivores := w.dead_herbivores ++ [brain] }
                    | .carnivoro => { w with dead_carnivores := w.dead_carnivores ++ [brain] }
                    | .planta => w
                  { w := w, new_cells := s.new_cells,
                    cells_to_remove := s.cells_to_remove ++ [cid] }
                else
                  { w := w, new_cells := s.new_cells,
                    cells_to_remove := s.cells_to_remove ++ [cid] }
              else
                { w := w, new_cells := s.new_cells, cells_to_remove := s.cells_to_remove }
            let s3 :=
              match out.2.2 with
              | some nc => { s2 with new_cells := s2.new_cells ++ [nc] }
              | none => s2
            process_cells oracles rest s3

/-- Per-species oracles for one `_evolve_generation` call. -/
structure WorldEvoOracle where
  pow15 : Nat → ℚ := fun n => (n : ℚ)
  herb : EvoPopOracle := {}
  carn : EvoPopOracle := {}
  herb_shuffle : List (ℤ × ℤ) → List (ℤ × ℤ) := id
  carn_shuffle : List (ℤ × ℤ) → List (ℤ × ℤ) := id
  herb_curiosity : Nat → ℚ := fun _ => mkRat 1 2
  carn_curiosity : Nat → ℚ := fun _ => mkRat 1 2

/-- Empty grid positions in row-major order (the scan of
`_spawn_evolved_creatures`). -/
def World.empty_positions (w : World) : List (ℤ × ℤ) :=
  (List.range w.height).flatMap (fun y =>
    (List.range w.width).filterMap (fun x =>
      match w.grid.getD (y * w.width + x) none with
      | none => some ((x : ℤ), (y : ℤ))
      | some _ => none))

/-- `World._spawn_evolved_creatures`. -/
def spawn_evolved_creatures (w : World) (creature_type : Species)
    (brains : List CellBrain) (shuffle : List (ℤ × ℤ) → List (ℤ × ℤ))
    (curiosity : Nat → ℚ) : World :=
  let empty := w.empty_positions
  if empty.isEmpty then w
  else
    let positions := shuffle empty
    (brains.enum.foldl
      (fun w bi =>
        if positions.length ≤ bi.1 then w
        else
          let pos := positions.getD bi.1 (0, 0)
          let creature :=
            match creature_type with
            | .herbivoro => mkHerbivoro w.next_id pos.1 pos.2 bi.2 (curiosity bi.1)
            | .carnivoro => mkCarnivoro w.next_id pos.1 pos.2 bi.2 (curiosity bi.1)
            | .planta => mkPlanta w.next_id pos.1 pos.2 bi.2 (curiosity bi.1)
          let w := { w with next_id := w.next_id + 1 }
          let w := w.heapSet creature
          w.gridSet pos.1 pos.2 (some creature.cid))
      w)

/-- Number of grid occupants of a species. -/
def World.count_species (w : World) (sp : Species) : Nat :=
  (w.scan_cells.filterMap w.heapGet).countP (fun c => c.species == sp)

/-- `World._evolve_generation`. -/
def evolve_generation (w : World) (evo : WorldEvoOracle) : World :=
  let current_herbivores := w.count_species .herbivoro
  let current_carnivores := w.count_species .carnivoro
  let w :=
    if ¬ w.dead_herbivores.isEmpty then
      let ev := evolve_population w.evolution_engine evo.pow15 evo.herb
        w.dead_herbivores (max 5 (current_herbivores / 4))
      let w := { w with evolution_engine := ev.1 }
      let w := spawn_evolved_creatures w .herbivoro ev.2 evo.herb_shuffle evo.herb_curiosity
      { w with dead_herbivores := [] }
    else w
  if ¬ w.dead_carnivores.isEmpty then
    let ev := evolve_population w.evolution_engine evo.pow15 evo.carn
      w.dead_carnivores (max 2 (current_carnivores / 4))
    let w := { w with evolution_engine := ev.1 }
    let w := spawn_evolved_creatures w .carnivoro ev.2 evo.carn_shuffle evo.carn_curiosity
    { w with dead_carnivores := [] }
  else w

/-- `World.update`: one tick.  `shuffle` is the `random.shuffle` applied to
the scanned cell list; `oracles` supplies each cell's per-turn draws, keyed
by its identity. -/
def world_update (w : World) (shuffle : List Nat → List Nat)
    (oracles : Nat → CellOracle) (evo : WorldEvoOracle) : World :=
  let w := { w with tick := w.tick + 1 }
  let cells_to_update := shuffle w.scan_cells
  let s := process_cells oracles cells_to_update { w := w }
  let w := s.w
  let w := s.cells_to_remove.foldl
    (fun w cid =>
      match w.heapGet cid with
      | some cell => w.gridSet cell.x cell.y none
      | none => w)
    w
  let w := s.new_cells.foldl
    (fun w nc =>
      if w.gridGet nc.x nc.y = none then w.gridSet nc.x nc.y (some nc.cid) else w)
    w
  if w.evolution_enabled ∧ w.tick % w.generation_length = 0 then
    evolve_generation w evo
  else w

/-- `World.step`. -/
def world_step (w : World) (shuffle : List Nat → List Nat)
    (oracles : Nat → CellOracle) (evo : WorldEvoOracle) : World :=
  world_update { w with step_count := w.step_count + 1 } shuffle oracles evo

/-- Iterated animal updates of one organism across arbitrary ticks: each
step is that organism's own `update` (dispatched on its species) in an
arbitrary world with arbitrary draws — the only code that ever touches its
`experimentation_cooldown`. -/
def iterate_animal_updates : List (World × CellOracle) → Celula → Celula
  | [], c => c
  | (w, orc) :: rest, c => iterate_animal_updates rest (cell_update w c orc).2.1

/-- The base-formula part of `calculate_significance` as a standalone
function of the result's object lists. -/
def significance_formula (r : CombinationResult) : ℚ :=
  let score : ℚ := 0
  let score := qAdd score (qMul (r.new_objects.length : ℚ) 10)
  let score := r.modified_objects.foldl
    (fun acc o => qAdd acc (qMul (countStateProps o : ℚ) 2)) score
  qAdd score (qMul (r.destroyed_objects.length : ℚ) 5)

/-! ## Concrete scenario data for the witnesses and counterexamples -/

/-- A water object holding only the non-permanent `es_humedo` property. -/
def c8_obj : UniverseObject := mkUniverseObject 50 "Agua" ["es_humedo"]

/-- The property instance `c8_obj` holds. -/
def c8_pv : PropertyValue :=
  { name := "es_humedo", property_type := .state, intensity := 1, is_permanent := false,
    description := "Contains moisture" }

/-- A three-weight network at the clamp boundaries. -/
def c9_net : NeuralNetwork := { weights := [2, -2, 1] }

/-- Mutation oracle perturbing only weight 2, with draw 5. -/
def c9_orc : Nat → Bool × ℚ := fun i => (i == 2, 5)

/-- A herbivore whose experimentation attempt has just set its cooldown. -/
def c10_cell : Celula :=
  { mkHerbivoro 7 0 0 (CellBrain.ofNetwork { weights := [] }) (mkRat 1 2) with
    experimentation_cooldown := 5 }

/-- A minimal world for the cooldown witness. -/
def c10_world : World := { width := 1, height := 1, grid := [none] }

/-- Actor object for the unknown-action scenario. -/
def c2_rock : UniverseObject := mkUniverseObject 60 "Piedra" ["es_duro"]

/-- Target object for the unknown-action scenario. -/
def c2_palo : UniverseObject := mkUniverseObject 61 "Palo" ["es_organico", "es_fragil"]

/-- Sharp actor for the tool-creation bonus scenario. -/
def c3_rock : UniverseObject := mkUniverseObject 70 "Piedra Afilada" ["es_cortante"]

/-- Organic fragile target for the tool-creation bonus scenario. -/
def c3_stick : UniverseObject := mkUniverseObject 71 "Palo" ["es_organico", "es_fragil"]

/-- The per-cell-identity inventory view of the heap. -/
def heap_inventories (w : World) : List (Nat × List UniverseObject) :=
  w.heap.map (fun e => (e.1, e.2.inventory))

/-- A world assembled from a list of cell objects (the heap is keyed by each
cell's identity, as everywhere in the embedding). -/
def worldOfCells (width height : Nat) (grid : List (Option Nat)) (cells : List Celula) : World :=
  { width := width, height := height, grid := grid,
    heap := cells.map (fun cl => (cl.cid, cl)) }

/-- Discovering cell for the sharing scenario. -/
def c6_a : Celula := mkHerbivoro 20 0 0 (CellBrain.ofNetwork { weights := [] }) (mkRat 1 2)

/-- Neighbor cell for the sharing scenario. -/
def c6_b : Celula := mkHerbivoro 21 1 0 (CellBrain.ofNetwork { weights := [] }) (mkRat 1 2)

/-- The sharing-scenario world: two adjacent organisms. -/
def c6_world : World := worldOfCells 2 1 [some 20, some 21] [c6_a, c6_b]

/-- A discovery carrying new-object data in its involved lists (the
`Discovery` record has no `result` attribute to carry objects). -/
def c6_discovery : Discovery :=
  { id := "DISC_0001", discovery_type := .new_object, name := "Discovery of Lanza Primitiva",
    description := "Created Lanza Primitiva", significance := 15 }

/-- A carnivore at `(0, 0)` with initial energy 20, for the zombie-prey
scenario. -/
def c1_carn : Celula :=
  mkCarnivoro 1 0 0 (CellBrain.ofNetwork { weights := [] }) (mkRat 1 2) 20

/-- A herbivore at `(1, 0)`, the carnivore's prey. -/
def c1_herb : Celula := mkHerbivoro 2 1 0 (CellBrain.ofNetwork { weights := [] }) (mkRat 1 2)

/-- A 3-by-1 world holding the carnivore and the herbivore side by side. -/
def c1_world : World :=
  { width := 3, height := 1, grid := [some 1, some 2, none],
    heap := [(1, c1_carn), (2, c1_herb)], next_id := 3 }

/-- Every organism's brain decides to step one cell to the right. -/
def c1_orcs : Nat → CellOracle := fun _ => { decide_delta := (1, 0) }

/-- A hard object named `X` (signature `X::es_duro`). -/
def c7_objA : UniverseObject := mkUniverseObject 10 "X" ["es_duro"]

/-- A glowing object also named `X` (signature `X::brilla`). -/
def c7_objB : UniverseObject := mkUniverseObject 11 "X" ["brilla"]

/-- A successful interaction result creating `c7_objA`. -/
def c7_r1 : CombinationResult :=
  { success := true, new_objects := [c7_objA], significance_score := 10 }

/-- A successful interaction result creating `c7_objB`. -/
def c7_r2 : CombinationResult :=
  { success := true, new_objects := [c7_objB], significance_score := 10 }

/-- Detector state after analyzing the creation of `c7_objA`. -/
def c7_st1 : DetectorState := (analyze_interaction_result {} c7_r1 0 none).1

/-- ... then a first creation of `c7_objB`. -/
def c7_st2 : DetectorState := (analyze_interaction_result c7_st1 c7_r2 0 none).1

/-- ... then a second creation of `c7_objB`. -/
def c7_st3 : DetectorState := (analyze_interaction_result c7_st2 c7_r2 0 none).1

/-- ... then a third creation of `c7_objB`. -/
def c7_st4 : DetectorState := (analyze_interaction_result c7_st3 c7_r2 0 none).1

/-- A minimal pre-existing discovery named after object `X`. -/
def c7_d1 : Discovery :=
  { id := "DISC_0001", discovery_type := .new_object, name := "Discovery of X",
    description := "", significance := 10 }

/-- A minimal detector state: one filed discovery named `Discovery of X` and
the signature `X::brilla` already created twice. -/
def c7_min_st : DetectorState :=
  { discoveries := [c7_d1],
    object_patterns := [("X::brilla",
      { first_seen := 0, times_created := 2, creation_methods := [""] })],
    next_discovery_id := 2 }

/-- A dead brain of survival age `n` carrying a distinguishable one-weight
network, for the elite-count scenario. -/
def c4_brain (n : Nat) : CellBrain :=
  { network := { weights := [(n : ℚ)] }, age_at_death := n }

/-- A pool of six dead brains with pairwise distinct raw fitnesses. -/
def c4_pool : List CellBrain :=
  [c4_brain 1, c4_brain 2, c4_brain 3, c4_brain 4, c4_brain 5, c4_brain 6]

/-- A dead brain with survival age 1 and nothing else (raw fitness 2). -/
def c5_brain : CellBrain := { network := { weights := [] }, age_at_death := 1 }

/-- A dead brain with survival age 2 (raw fitness 4). -/
def c5_brain2 : CellBrain := { network := { weights := [] }, age_at_death := 2 }

/-- `n ** 1.5` evaluated where the scenarios need it (`0 ** 1.5 = 0` and
`1 ** 1.5 = 1` exactly, also in IEEE floats). -/
def pow15_cast : Nat → ℚ := fun n => (n : ℚ)

/-! ## General lemmas and theorems -/

theorem qAdd_eq (a b : ℚ) : qAdd a b = a + b := by
  unfold qAdd
  rw [Rat.mkRat_eq_div]
  have ha : (a.den : ℚ) ≠ 0 := by exact_mod_cast a.den_nz
  have hb : (b.den : ℚ) ≠ 0 := by exact_mod_cast b.den_nz
  conv_rhs => rw [← Rat.num_div_den a, ← Rat.num_div_den b]
  field_simp

theorem qSub_eq (a b : ℚ) : qSub a b = a - b := by
  unfold qSub
  rw [Rat.mkRat_eq_div]
  have ha : (a.den : ℚ) ≠ 0 := by exact_mod_cast a.den_nz
  have hb : (b.den : ℚ) ≠ 0 := by exact_mod_cast b.den_nz
  conv_rhs => rw [← Rat.num_div_den a, ← Rat.num_div_den b]
  field_simp
  ring

theorem qMul_eq (a b : ℚ) : qMul a b = a * b := by
  unfold qMul
  rw [Rat.mkRat_eq_div]
  have ha : (a.den : ℚ) ≠ 0 := by exact_mod_cast a.den_nz
  have hb : (b.den : ℚ) ≠ 0 := by exact_mod_cast b.den_nz
  conv_rhs => rw [← Rat.num_div_den a, ← Rat.num_div_den b]
  field_simp

theorem qDiv_eq (a b : ℚ) : qDiv a b = a / b := by
  unfold qDiv
  rw [Rat.mkRat_eq_div]
  rcases lt_trichotomy b.num 0 with hneg | hzero | hpos
  · have ha : (a.den : ℚ) ≠ 0 := by exact_mod_cast a.den_nz
    have hd : (b.den : ℚ) ≠ 0 := by exact_mod_cast b.den_nz
    have hn : (b.num : ℚ) ≠ 0 := by exact_mod_cast hneg.ne
    have habs : (b.num.natAbs : ℚ) = -(b.num : ℚ) := by
      rw [Int.cast_natAbs]
      exact_mod_cast abs_of_neg hneg
    simp only [if_pos hneg]
    conv_rhs => rw [← Rat.num_div_den a, ← Rat.num_div_den b]
    push_cast
    rw [habs]
    field_simp
  · have hb0 : b = 0 := Rat.num_eq_zero.mp hzero
    subst hb0
    simp [Rat.mkRat_eq_div]
  · have ha : (a.den : ℚ) ≠ 0 := by exact_mod_cast a.den_nz
    have hd : (b.den : ℚ) ≠ 0 := by exact_mod_cast b.den_nz
    have hn : (b.num : ℚ) ≠ 0 := by exact_mod_cast hpos.ne'
    have habs : (b.num.natAbs : ℚ) = (b.num : ℚ) := by
      rw [Int.cast_natAbs]
      exact_mod_cast abs_of_pos hpos
    simp only [if_neg (by omega : ¬ b.num < 0)]
    conv_rhs => rw [← Rat.num_div_den a, ← Rat.num_div_den b]
    push_cast
    rw [habs]
    field_simp

theorem name_eq_of_get_property {o : UniverseObject} {n : String} {pv : PropertyValue}
    (h : o.get_property n = some pv) : pv.name = n := by
  have := List.find?_some h
  exact eq_of_beq this

theorem find?_setProp_self (l : List PropertyValue) (p : PropertyValue) :
    (setProp l p).find? (fun q => q.name == p.name) = some p := by
  induction l with
  | nil => simp [setProp]
  | cons q qs ih =>
    by_cases h : (q.name == p.name) = true
    · simp [setProp, h]
    · simp only [setProp, h, Bool.false_eq_true, if_false]
      rw [List.find?_cons_of_neg _ (by simp [h]), ih]

theorem map_name_setProp (l : List PropertyValue) (p : PropertyValue)
    (h : ∃ q ∈ l, q.name = p.name) :
    (setProp l p).map PropertyValue.name = l.map PropertyValue.name := by
  induction l with
  | nil => simp at h
  | cons q qs ih =>
    by_cases hq : (q.name == p.name) = true
    · have : q.name = p.name := eq_of_beq hq
      simp [setProp, hq, this]
    · have hqne : q.name ≠ p.name := by
        intro he
        exact hq (beq_iff_eq.mpr he)
      rcases h with ⟨q', hq', he'⟩
      rcases List.mem_cons.mp hq' with rfl | hmem
      · exact absurd he' hqne
      · simp only [setProp, hq, Bool.false_eq_true, if_false, List.map_cons]
        rw [ih ⟨q', hmem, he'⟩]

theorem find?_name_none (l : List PropertyValue) (n : String)
    (h : ∀ q ∈ l, q.name ≠ n) : l.find? (fun q => q.name == n) = none := by
  induction l with
  | nil => simp
  | cons q qs ih =>
    rw [List.find?_cons_of_neg _ (by simp [h q (List.mem_cons_self q qs)])]
    exact ih (fun q' hq' => h q' (List.mem_cons_of_mem q hq'))

theorem find?_delProp_self (l : List PropertyValue) (n : String)
    (hnodup : (l.map PropertyValue.name).Nodup) :
    (delProp l n).find? (fun q => q.name == n) = none := by
  induction l with
  | nil => simp [delProp]
  | cons q qs ih =>
    simp only [List.map_cons, List.nodup_cons] at hnodup
    by_cases hq : (q.name == n) = true
    · have hqn : q.name = n := eq_of_beq hq
      simp only [delProp, hq, if_true]
      refine find?_name_none qs n (fun q' hq' he => ?_)
      exact hnodup.1 (by
        rw [← hqn] at he
        exact he ▸ List.mem_map_of_mem PropertyValue.name hq')
    · simp only [delProp, hq, Bool.false_eq_true, if_false]
      rw [List.find?_cons_of_neg _ (by simp [hq])]
      exact ih hnodup.2

theorem log_change_properties (o : UniverseObject) (d : String) :
    (o.log_change d).properties = o.properties := rfl

theorem foldl_min_le_self (x : ℚ) (l : List ℚ) : l.foldl min x ≤ x := by
  induction l generalizing x with
  | nil => exact le_rfl
  | cons b bs ih => exact le_trans (ih (min x b)) (min_le_left x b)

theorem foldl_min_le_mem (x y : ℚ) (l : List ℚ) (hy : y ∈ l) : l.foldl min x ≤ y := by
  induction l generalizing x with
  | nil => cases hy
  | cons b bs ih =>
    rcases List.mem_cons.mp hy with h | h
    · subst h
      exact le_trans (foldl_min_le_self (min x y) bs) (min_le_right x y)
    · exact ih (min x b) h

theorem pyMin_le (l : List ℚ) (y : ℚ) (hy : y ∈ l) : pyMin l ≤ y := by
  cases l with
  | nil => cases hy
  | cons x xs =>
    rcases List.mem_cons.mp hy with h | h
    · subst h
      exact foldl_min_le_self _ _
    · exact foldl_min_le_mem x y xs h

theorem le_foldl_max_self (x : ℚ) (l : List ℚ) : x ≤ l.foldl max x := by
  induction l generalizing x with
  | nil => exact le_rfl
  | cons b bs ih => exact le_trans (le_max_left x b) (ih (max x b))

theorem le_foldl_max_mem (x y : ℚ) (l : List ℚ) (hy : y ∈ l) : y ≤ l.foldl max x := by
  induction l generalizing x with
  | nil => cases hy
  | cons b bs ih =>
    rcases List.mem_cons.mp hy with h | h
    · subst h
      exact le_trans (le_max_right x y) (le_foldl_max_self (max x y) bs)
    · exact ih (max x b) h

theorem le_pyMax (l : List ℚ) (y : ℚ) (hy : y ∈ l) : y ≤ pyMax l := by
  cases l with
  | nil => cases hy
  | cons x xs =>
    rcases List.mem_cons.mp hy with h | h
    · subst h
      exact le_foldl_max_self _ _
    · exact le_foldl_max_mem x y xs h

/-- C8.  For every object holding a property named `p`,
`modify_property_intensity(p, delta)` clamps `p`'s intensity into `[0, 1]`;
the property is removed exactly when the clamped intensity is 0 and it is
non-permanent, and a permanent property is never removed. -/
theorem claim_C8 (o : UniverseObject) (p : String) (delta : ℚ) (pv : PropertyValue)
    (hnodup : (o.properties.map PropertyValue.name).Nodup)
    (hp : o.get_property p = some pv) :
    (0 ≤ max 0 (min 1 (pv.intensity + delta)) ∧ max 0 (min 1 (pv.intensity + delta)) ≤ 1) ∧
    ((o.modify_property_intensity p delta).1.get_property p =
       if max 0 (min 1 (pv.intensity + delta)) ≤ 0 ∧ pv.is_permanent = false then none
       else some { pv with intensity := max 0 (min 1 (pv.intensity + delta)) }) ∧
    (pv.is_permanent = true →
       (o.modify_property_intensity p delta).1.get_property p =
         some { pv with intensity := max 0 (min 1 (pv.intensity + delta)) }) := by
  have hname : pv.name = p := name_eq_of_get_property hp
  have hclamp0 : (0 : ℚ) ≤ max 0 (min 1 (pv.intensity + delta)) := le_max_left 0 _
  have hclamp1 : max 0 (min 1 (pv.intensity + delta)) ≤ 1 :=
    max_le (by norm_num) (min_le_left 1 _)
  have hmain : (o.modify_property_intensity p delta).1.get_property p =
      if max 0 (min 1 (pv.intensity + delta)) ≤ 0 ∧ pv.is_permanent = false then none
      else some { pv with intensity := max 0 (min 1 (pv.intensity + delta)) } := by
    unfold UniverseObject.modify_property_intensity
    rw [hp]
    simp only [qAdd_eq]
    set newI := max 0 (min 1 (pv.intensity + delta)) with hNewI
    set pnew : PropertyValue := { pv with intensity := newI } with hPnew
    have hsetfind : (setProp o.properties pnew).find? (fun x => x.name == p) = some pnew := by
      have h0 := find?_setProp_self o.properties pnew
      have : pnew.name = p := by simp [hPnew, hname]
      rw [this] at h0
      exact h0
    have hmemname : ∃ q ∈ o.properties, q.name = pnew.name := by
      refine ⟨pv, List.mem_of_find?_eq_some hp, ?_⟩
      simp [hPnew]
    have hnames : (setProp o.properties pnew).map PropertyValue.name =
        o.properties.map PropertyValue.name := map_name_setProp o.properties pnew hmemname
    by_cases hperm : pv.is_permanent = false
    · by_cases hzero : newI ≤ 0
      · rw [if_pos ⟨hzero, by simp [hperm]⟩, if_pos ⟨hzero, hperm⟩]
        unfold UniverseObject.remove_property
        show (let o1 : UniverseObject := { o with properties := setProp o.properties pnew };
          (match o1.get_property p with
           | none => (o1, false)
           | some q =>
             if ¬ q.is_permanent then
               ({ o1 with properties := delProp o1.properties p }.log_change
                  ("Lost property: " ++ q.name), true)
             else (o1.log_change ("Cannot remove permanent property: " ++ q.name), false)).1
          ).get_property p = none
        simp only [UniverseObject.get_property] at hsetfind ⊢
        rw [hsetfind]
        have hnp : ¬ pnew.is_permanent = true := by simp [hPnew, hperm]
        dsimp only
        rw [if_pos hnp]
        exact find?_delProp_self _ _ (by rw [hnames]; exact hnodup)
      · rw [if_neg (by intro hc; exact hzero hc.1), if_neg (by intro hc; exact hzero hc.1)]
        show (setProp o.properties pnew).find? (fun x => x.name == p) = some pnew
        exact hsetfind
    · have hpermT : pv.is_permanent = true := by
        cases h : pv.is_permanent
        · exact absurd h hperm
        · rfl
      rw [if_neg (fun hc => hc.2 hpermT), if_neg (by intro hc; simp [hpermT] at hc)]
      show (setProp o.properties pnew).find? (fun x => x.name == p) = some pnew
      exact hsetfind
  exact ⟨⟨hclamp0, hclamp1⟩, hmain, fun hpermT => by
    rw [hmain, if_neg (by intro hc; simp [hpermT] at hc)]⟩

/-- C8 witness: removing the last unit of a non-permanent property. -/
theorem claim_C8_witness :
    (0 ≤ max 0 (min 1 (c8_pv.intensity + (-1 : ℚ))) ∧
       max 0 (min 1 (c8_pv.intensity + (-1 : ℚ))) ≤ 1) ∧
    ((c8_obj.modify_property_intensity "es_humedo" (-1)).1.get_property "es_humedo" =
       if max 0 (min 1 (c8_pv.intensity + (-1 : ℚ))) ≤ 0 ∧ c8_pv.is_permanent = false then none
       else some { c8_pv with intensity := max 0 (min 1 (c8_pv.intensity + (-1 : ℚ))) }) ∧
    (c8_pv.is_permanent = true →
       (c8_obj.modify_property_intensity "es_humedo" (-1)).1.get_property "es_humedo" =
         some { c8_pv with intensity := max 0 (min 1 (c8_pv.intensity + (-1 : ℚ))) }) :=
  claim_C8 c8_obj "es_humedo" (-1) c8_pv (by decide) (by decide)

theorem mutateWeightsAux_getElem (orc : Nat → Bool × ℚ) (l : List ℚ) (i0 : Nat) :
    ∀ k, (mutateWeightsAux orc i0 l).get? k =
      (l.get? k).map (fun w =>
        if (orc (i0 + k)).1 then max (-2) (min 2 (qAdd w (orc (i0 + k)).2)) else w) := by
  induction l generalizing i0 with
  | nil => intro k; simp [mutateWeightsAux]
  | cons w rest ih =>
    intro k
    cases k with
    | zero => simp [mutateWeightsAux]
    | succ k' =>
        simp only [mutateWeightsAux, List.get?_cons_succ]
        rw [ih (i0 + 1) k']
        have he : i0 + 1 + k' = i0 + (k' + 1) := by omega
        rw [he]

theorem mutateWeightsAux_mem (orc : Nat → Bool × ℚ) (l : List ℚ) (i0 : Nat)
    (h : ∀ w ∈ l, -2 ≤ w ∧ w ≤ 2) :
    ∀ w' ∈ mutateWeightsAux orc i0 l, -2 ≤ w' ∧ w' ≤ 2 := by
  induction l generalizing i0 with
  | nil => intro w' hw'; simp [mutateWeightsAux] at hw'
  | cons w rest ih =>
    intro w' hw'
    simp only [mutateWeightsAux, List.mem_cons] at hw'
    rcases hw' with rfl | hmem
    · by_cases hb : (orc i0).1 = true
      · simp only [hb, if_true]
        exact ⟨le_max_left _ _, max_le (by norm_num) (min_le_left _ _)⟩
      · simp only [hb, if_false]
        exact h w (List.mem_cons_self w rest)
    · exact ih (i0 + 1) (fun v hv => h v (List.mem_cons_of_mem w hv)) w' hmem

theorem mutateWeightsAux_length (orc : Nat → Bool × ℚ) (l : List ℚ) (i0 : Nat) :
    (mutateWeightsAux orc i0 l).length = l.length := by
  induction l generalizing i0 with
  | nil => rfl
  | cons w rest ih => simp [mutateWeightsAux, ih]

/-- C9.  For every network whose weights all lie in `[-2, 2]`, after
`mutate` every weight still lies in `[-2, 2]`: a weight whose perturbation
draw fired becomes its perturbed value clamped to `[-2, 2]`, and an
unperturbed weight is unchanged; the weight count is preserved. -/
theorem claim_C9 (n : NeuralNetwork) (orc : Nat → Bool × ℚ)
    (h : ∀ w ∈ n.weights, -2 ≤ w ∧ w ≤ 2) :
    (∀ w' ∈ (n.mutate orc).weights, -2 ≤ w' ∧ w' ≤ 2) ∧
    (∀ i, (orc i).1 = false → (n.mutate orc).weights.get? i = n.weights.get? i) ∧
    (∀ i w, (orc i).1 = true → n.weights.get? i = some w →
       (n.mutate orc).weights.get? i = some (max (-2) (min 2 (w + (orc i).2)))) ∧
    (n.mutate orc).weights.length = n.weights.length := by
  refine ⟨mutateWeightsAux_mem orc n.weights 0 h, ?_, ?_, mutateWeightsAux_length orc n.weights 0⟩
  · intro i hi
    rw [show (n.mutate orc).weights = mutateWeightsAux orc 0 n.weights from rfl,
        mutateWeightsAux_getElem orc n.weights 0 i]
    simp only [Nat.zero_add, hi, Bool.false_eq_true, if_false]
    cases n.weights.get? i <;> rfl
  · intro i w hi hw
    rw [show (n.mutate orc).weights = mutateWeightsAux orc 0 n.weights from rfl,
        mutateWeightsAux_getElem orc n.weights 0 i]
    rw [hw]
    simp [Nat.zero_add, hi, qAdd_eq]

/-- C9 witness: a boundary network with one perturbed weight. -/
theorem claim_C9_witness :
    (∀ w' ∈ (c9_net.mutate c9_orc).weights, -2 ≤ w' ∧ w' ≤ 2) ∧
    (∀ i, (c9_orc i).1 = false → (c9_net.mutate c9_orc).weights.get? i = c9_net.weights.get? i) ∧
    (∀ i w, (c9_orc i).1 = true → c9_net.weights.get? i = some w →
       (c9_net.mutate c9_orc).weights.get? i = some (max (-2) (min 2 (w + (c9_orc i).2)))) ∧
    (c9_net.mutate c9_orc).weights.length = c9_net.weights.length :=
  claim_C9 c9_net c9_orc (by decide)

theorem gridSet_engine (w : World) (x y : ℤ) (v : Option Nat) :
    (w.gridSet x y v).engine = w.engine := by
  unfold World.gridSet
  split <;> rfl

theorem attempt_discovery_noop (w : World) (c : Celula) (orc : CellOracle)
    (h : c.experimentation_cooldown ≠ 0) : attempt_discovery w c orc = (w, c) := by
  unfold attempt_discovery
  rw [if_neg (fun hc => h hc.1)]

theorem find_basic_materials_cell (w : World) (c : Celula) (orc : CellOracle) :
    ∃ inv, (find_basic_materials w c orc).2 = { c with inventory := inv } := by
  unfold find_basic_materials
  split
  · split
    · exact ⟨_, rfl⟩
    · split
      · exact ⟨_, rfl⟩
      · split
        · exact ⟨_, rfl⟩
        · exact ⟨c.inventory, rfl⟩
  · exact ⟨c.inventory, rfl⟩

theorem find_basic_materials_engine (w : World) (c : Celula) (orc : CellOracle) :
    (find_basic_materials w c orc).1.engine = w.engine := by
  unfold find_basic_materials
  split
  · split
    · rfl
    · split
      · rfl
      · split
        · rfl
        · rfl
  · rfl

theorem brain_move_and_eat_cell (w : World) (c : Celula) (orc : CellOracle) :
    ((brain_move_and_eat w c orc).2.experimentation_cooldown = c.experimentation_cooldown ∧
     (brain_move_and_eat w c orc).2.species = c.species) ∧
    (brain_move_and_eat w c orc).1.engine = w.engine := by
  unfold brain_move_and_eat
  dsimp only
  split
  · exact ⟨⟨rfl, rfl⟩, rfl⟩
  · split <;> split <;> exact ⟨⟨rfl, rfl⟩, by simp [gridSet_engine]⟩

theorem brain_hunt_and_eat_cell (w : World) (c : Celula) (orc : CellOracle) :
    ((brain_hunt_and_eat w c orc).2.experimentation_cooldown = c.experimentation_cooldown ∧
     (brain_hunt_and_eat w c orc).2.species = c.species) ∧
    (brain_hunt_and_eat w c orc).1.engine = w.engine := by
  unfold brain_hunt_and_eat
  dsimp only
  split
  · exact ⟨⟨rfl, rfl⟩, rfl⟩
  · split <;> split <;> exact ⟨⟨rfl, rfl⟩, by simp [gridSet_engine]⟩

theorem brain_reproduce_cell (w : World) (c : Celula) (orc : CellOracle) :
    ((brain_reproduce w c orc).2.1.experimentation_cooldown = c.experimentation_cooldown ∧
     (brain_reproduce w c orc).2.1.species = c.species) ∧
    (brain_reproduce w c orc).1.engine = w.engine := by
  unfold brain_reproduce
  dsimp only
  split
  · exact ⟨⟨rfl, rfl⟩, rfl⟩
  · exact ⟨⟨rfl, rfl⟩, rfl⟩

theorem herb_alive_tail (w : World) (c' : Celula) (orc : CellOracle)
    (h : c'.experimentation_cooldown ≠ 0) :
    ((let fm := find_basic_materials w c' orc
      let ad := attempt_discovery fm.1 fm.2 orc
      let mv := brain_move_and_eat ad.1 ad.2 orc
      let w2 := mv.1
      let c2 := mv.2
      if c2.reproduction_threshold ≤ c2.energy then brain_reproduce w2 c2 orc
      else (w2, c2, none)).2.1.experimentation_cooldown = c'.experimentation_cooldown) ∧
    ((let fm := find_basic_materials w c' orc
      let ad := attempt_discovery fm.1 fm.2 orc
      let mv := brain_move_and_eat ad.1 ad.2 orc
      let w2 := mv.1
      let c2 := mv.2
      if c2.reproduction_threshold ≤ c2.energy then brain_reproduce w2 c2 orc
      else (w2, c2, none)).2.1.species = c'.species) ∧
    ((let fm := find_basic_materials w c' orc
      let ad := attempt_discovery fm.1 fm.2 orc
      let mv := brain_move_and_eat ad.1 ad.2 orc
      let w2 := mv.1
      let c2 := mv.2
      if c2.reproduction_threshold ≤ c2.energy then brain_reproduce w2 c2 orc
      else (w2, c2, none)).1.engine = w.engine) := by
  obtain ⟨inv, hfm⟩ := find_basic_materials_cell w c' orc
  have hcool : (find_basic_materials w c' orc).2.experimentation_cooldown =
      c'.experimentation_cooldown := by rw [hfm]
  have had : attempt_discovery (find_basic_materials w c' orc).1
      (find_basic_materials w c' orc).2 orc =
      ((find_basic_materials w c' orc).1, (find_basic_materials w c' orc).2) :=
    attempt_discovery_noop _ _ orc (by rw [hcool]; exact h)
  dsimp only
  rw [had]
  dsimp only
  have hmv := brain_move_and_eat_cell (find_basic_materials w c' orc).1
    (find_basic_materials w c' orc).2 orc
  split
  · have hrep := brain_reproduce_cell
      (brain_move_and_eat (find_basic_materials w c' orc).1 (find_basic_materials w c' orc).2 orc).1
      (brain_move_and_eat (find_basic_materials w c' orc).1 (find_basic_materials w c' orc).2 orc).2 orc
    refine ⟨?_, ?_, ?_⟩
    · rw [hrep.1.1, hmv.1.1, hcool]
    · rw [hrep.1.2, hmv.1.2, hfm]
    · rw [hrep.2, hmv.2, find_basic_materials_engine w c' orc]
  · refine ⟨?_, ?_, ?_⟩
    · rw [hmv.1.1, hcool]
    · rw [hmv.1.2, hfm]
    · rw [hmv.2, find_basic_materials_engine w c' orc]

theorem carn_alive_tail (w : World) (c' : Celula) (orc : CellOracle)
    (h : c'.experimentation_cooldown ≠ 0) :
    ((let fm := find_basic_materials w c' orc
      let ad := attempt_discovery fm.1 fm.2 orc
      let mv := brain_hunt_and_eat ad.1 ad.2 orc
      let w2 := mv.1
      let c2 := mv.2
      if c2.reproduction_threshold ≤ c2.energy then brain_reproduce w2 c2 orc
      else (w2, c2, none)).2.1.experimentation_cooldown = c'.experimentation_cooldown) ∧
    ((let fm := find_basic_materials w c' orc
      let ad := attempt_discovery fm.1 fm.2 orc
      let mv := brain_hunt_and_eat ad.1 ad.2 orc
      let w2 := mv.1
      let c2 := mv.2
      if c2.reproduction_threshold ≤ c2.energy then brain_reproduce w2 c2 orc
      else (w2, c2, none)).2.1.species = c'.species) ∧
    ((let fm := find_basic_materials w c' orc
      let ad := attempt_discovery fm.1 fm.2 orc
      let mv := brain_hunt_and_eat ad.1 ad.2 orc
      let w2 := mv.1
      let c2 := mv.2
      if c2.reproduction_threshold ≤ c2.energy then brain_reproduce w2 c2 orc
      else (w2, c2, none)).1.engine = w.engine) := by
  obtain ⟨inv, hfm⟩ := find_basic_materials_cell w c' orc
  have hcool : (find_basic_materials w c' orc).2.experimentation_cooldown =
      c'.experimentation_cooldown := by rw [hfm]
  have had : attempt_discovery (find_basic_materials w c' orc).1
      (find_basic_materials w c' orc).2 orc =
      ((find_basic_materials w c' orc).1, (find_basic_materials w c' orc).2) :=
    attempt_discovery_noop _ _ orc (by rw [hcool]; exact h)
  dsimp only
  rw [had]
  dsimp only
  have hmv := brain_hunt_and_eat_cell (find_basic_materials w c' orc).1
    (find_basic_materials w c' orc).2 orc
  split
  · have hrep := brain_reproduce_cell
      (brain_hunt_and_eat (find_basic_materials w c' orc).1 (find_basic_materials w c' orc).2 orc).1
      (brain_hunt_and_eat (find_basic_materials w c' orc).1 (find_basic_materials w c' orc).2 orc).2 orc
    refine ⟨?_, ?_, ?_⟩
    · rw [hrep.1.1, hmv.1.1, hcool]
    · rw [hrep.1.2, hmv.1.2, hfm]
    · rw [hrep.2, hmv.2, find_basic_materials_engine w c' orc]
  · refine ⟨?_, ?_, ?_⟩
    · rw [hmv.1.1, hcool]
    · rw [hmv.1.2, hfm]
    · rw [hmv.2, find_basic_materials_engine w c' orc]

theorem herbivoro_update_cooldown (w : World) (c : Celula) (orc : CellOracle)
    (h : 0 < c.experimentation_cooldown) :
    (herbivoro_update w c orc).2.1.experimentation_cooldown = c.experimentation_cooldown ∧
    (herbivoro_update w c orc).2.1.species = c.species ∧
    (herbivoro_update w c orc).1.engine = w.engine := by
  unfold herbivoro_update
  dsimp only
  split <;> split
  · exact ⟨rfl, rfl, rfl⟩
  · exact herb_alive_tail w _ orc (by show c.experimentation_cooldown ≠ 0; omega)
  · exact ⟨rfl, rfl, rfl⟩
  · exact herb_alive_tail w _ orc (by show c.experimentation_cooldown ≠ 0; omega)

theorem carnivoro_update_cooldown (w : World) (c : Celula) (orc : CellOracle)
    (h : 0 < c.experimentation_cooldown) :
    (carnivoro_update w c orc).2.1.experimentation_cooldown = c.experimentation_cooldown ∧
    (carnivoro_update w c orc).2.1.species = c.species ∧
    (carnivoro_update w c orc).1.engine = w.engine := by
  unfold carnivoro_update
  dsimp only
  split <;> split
  · exact ⟨rfl, rfl, rfl⟩
  · exact carn_alive_tail w _ orc (by show c.experimentation_cooldown ≠ 0; omega)
  · exact ⟨rfl, rfl, rfl⟩
  · exact carn_alive_tail w _ orc (by show c.experimentation_cooldown ≠ 0; omega)

theorem animal_update_pos (w : World) (c : Celula) (orc : CellOracle)
    (hs : c.species ≠ Species.planta) (h : 0 < c.experimentation_cooldown) :
    (cell_update w c orc).2.1.experimentation_cooldown = c.experimentation_cooldown ∧
    (cell_update w c orc).2.1.species = c.species ∧
    (cell_update w c orc).1.engine = w.engine := by
  cases hsp : c.species with
  | planta => exact absurd hsp hs
  | herbivoro =>
      have := herbivoro_update_cooldown w c orc h
      simpa only [cell_update, hsp] using this
  | carnivoro =>
      have := carnivoro_update_cooldown w c orc h
      simpa only [cell_update, hsp] using this

/-- C10.  `Herbivoro.update` and `Carnivoro.update` never decrease
`experimentation_cooldown`; a positive cooldown is left exactly unchanged by
them and no interaction (combine experiment) is performed — the engine state
is untouched; only the base `Celula.update` decrements it; consequently a
positive cooldown stays positive through any sequence of animal updates, so
an animal whose attempt set its cooldown to 5 never experiments again. -/
theorem claim_C10 :
    (∀ (w : World) (c : Celula) (orc : CellOracle), c.species ≠ Species.planta →
       c.experimentation_cooldown ≤ (cell_update w c orc).2.1.experimentation_cooldown) ∧
    (∀ (w : World) (c : Celula) (orc : CellOracle), c.species ≠ Species.planta →
       0 < c.experimentation_cooldown →
       (cell_update w c orc).2.1.experimentation_cooldown = c.experimentation_cooldown ∧
       (cell_update w c orc).1.engine = w.engine) ∧
    (∀ (w : World) (c : Celula) (orc : CellOracle), 1 < c.experimentation_cooldown →
       (celula_update w c orc).2.1.experimentation_cooldown = c.experimentation_cooldown - 1) ∧
    (∀ (steps : List (World × CellOracle)) (c : Celula), c.species ≠ Species.planta →
       0 < c.experimentation_cooldown →
       0 < (iterate_animal_updates steps c).experimentation_cooldown) := by
  refine ⟨?_, ?_, ?_, ?_⟩
  · intro w c orc hs
    rcases Nat.eq_zero_or_pos c.experimentation_cooldown with h0 | hpos
    · rw [h0]
      exact Nat.zero_le _
    · rw [(animal_update_pos w c orc hs hpos).1]
  · intro w c orc hs hpos
    exact ⟨(animal_update_pos w c orc hs hpos).1, (animal_update_pos w c orc hs hpos).2.2⟩
  · intro w c orc h1
    unfold celula_update
    dsimp only
    rw [if_pos (show 0 < c.experimentation_cooldown from by omega)]
    rw [attempt_discovery_noop _ _ orc (show c.experimentation_cooldown - 1 ≠ 0 from by omega)]
  · intro steps
    induction steps with
    | nil => intro c hs hpos; exact hpos
    | cons p rest ih =>
        intro c hs hpos
        have hstep := animal_update_pos p.1 c p.2 hs hpos
        show 0 < (iterate_animal_updates rest (cell_update p.1 c p.2).2.1).experimentation_cooldown
        exact ih _ (by rw [hstep.2.1]; exact hs) (by rw [hstep.1]; exact hpos)

/-- C10 witness: a herbivore at cooldown 5 keeps it through its update and
through an iterated run, with the engine untouched. -/
theorem claim_C10_witness :
    (cell_update c10_world c10_cell {}).2.1.experimentation_cooldown =
      c10_cell.experimentation_cooldown ∧
    (cell_update c10_world c10_cell {}).1.engine = c10_world.engine ∧
    0 < (iterate_animal_updates [(c10_world, {}), (c10_world, {})] c10_cell).experimentation_cooldown :=
  ⟨(claim_C10.2.1 c10_world c10_cell {} (by decide) (by decide)).1,
   (claim_C10.2.1 c10_world c10_cell {} (by decide) (by decide)).2,
   claim_C10.2.2.2 [(c10_world, {}), (c10_world, {})] c10_cell (by decide) (by decide)⟩

/-- C2 counterexample: an unrecognized action kind makes `interact` raise
(the `ValueError` of the `InteractionType` constructor, modelled as
`Except.error`), with the engine state untouched — no failure
`CombinationResult` is returned, contrary to the claim. -/
theorem claim_C2_counterexample :
    interact {} {} c2_rock c2_palo "fly" none =
      (Except.error "ValueError: not a valid InteractionType", ({} : EngineState)) := by
  rfl

/-- C2 amended: for every engine state, pair of objects, tool and action
string whose lowercased form is not a registered interaction kind, `interact`
raises `ValueError` (no `CombinationResult` of any kind, no `UnknownActionKind`)
before logging anything: the engine state is returned unchanged. -/
theorem claim_C2_amended (st : EngineState) (orc : InteractOracle)
    (actor target : UniverseObject) (tool : Option UniverseObject) (action : String)
    (h : parse_interaction_type action = none) :
    interact st orc actor target action tool =
      (Except.error "ValueError: not a valid InteractionType", st) := by
  unfold interact
  rw [h]

/-- C2 witness: the amended statement at the unknown action kind `fly`. -/
theorem claim_C2_witness :
    interact {} {} c2_rock c2_palo "fly" none =
      (Except.error "ValueError: not a valid InteractionType", ({} : EngineState)) :=
  claim_C2_amended {} {} c2_rock c2_palo none "fly" (by decide)

theorem heapPut_keyed (l : List (Nat × Celula)) (c : Celula)
    (h : ∀ e ∈ l, e.2.cid = e.1) : ∀ e ∈ heapPut l c, e.2.cid = e.1 := by
  induction l with
  | nil =>
      intro e he
      simp only [heapPut, List.mem_singleton] at he
      subst he
      rfl
  | cons kv rest ih =>
      intro e he
      obtain ⟨k, v⟩ := kv
      by_cases hk : (k == c.cid) = true
      · simp only [heapPut, hk, if_true, List.mem_cons] at he
        rcases he with rfl | hmem
        · exact (eq_of_beq hk).symm
        · exact h _ (List.mem_cons_of_mem _ hmem)
      · simp only [heapPut, hk, Bool.false_eq_true, if_false, List.mem_cons] at he
        rcases he with rfl | hmem
        · exact h _ (List.mem_cons_self _ _)
        · exact ih (fun e' he' => h e' (List.mem_cons_of_mem _ he')) e hmem

theorem heapPut_inventories (l : List (Nat × Celula)) (c : Celula) (e : Nat × Celula)
    (hfind : l.find? (fun x => x.1 == c.cid) = some e)
    (hinv : e.2.inventory = c.inventory) :
    (heapPut l c).map (fun x => (x.1, x.2.inventory)) =
      l.map (fun x => (x.1, x.2.inventory)) := by
  induction l with
  | nil => simp at hfind
  | cons kv rest ih =>
      obtain ⟨k, v⟩ := kv
      rw [List.find?_cons] at hfind
      by_cases hk : (k == c.cid) = true
      · simp only [hk] at hfind
        have he : e = (k, v) := (Option.some.injEq _ _).mp hfind.symm
        subst he
        simp only [heapPut, hk, if_true, List.map_cons]
        rw [← hinv]
      · simp only [Bool.not_eq_true] at hk
        simp only [hk] at hfind
        simp only [heapPut, hk, Bool.false_eq_true, if_false, List.map_cons]
        rw [ih hfind]

theorem share_aux (c : Celula) (d : Discovery) :
    ∀ (offs : List (ℤ × ℤ)) (w : World), (∀ e ∈ w.heap, e.2.cid = e.1) →
      heap_inventories (offs.foldl
        (fun w off =>
          let nx := c.x + off.1
          let ny := c.y + off.2
          if w.inBounds nx ny then
            match (w.gridGet nx ny).bind w.heapGet with
            | some neighbor =>
                if ¬ neighbor.known_discoveries.contains d.id then
                  w.heapSet { neighbor with
                    known_discoveries := neighbor.known_discoveries ++ [d.id] }
                else w
            | none => w
          else w)
        w) = heap_inventories w ∧
      (∀ e ∈ (offs.foldl
        (fun w off =>
          let nx := c.x + off.1
          let ny := c.y + off.2
          if w.inBounds nx ny then
            match (w.gridGet nx ny).bind w.heapGet with
            | some neighbor =>
                if ¬ neighbor.known_discoveries.contains d.id then
                  w.heapSet { neighbor with
                    known_discoveries := neighbor.known_discoveries ++ [d.id] }
                else w
            | none => w
          else w)
        w).heap, e.2.cid = e.1) := by
  intro offs
  induction offs with
  | nil => exact fun w hkey => ⟨rfl, hkey⟩
  | cons off rest ih =>
      intro w hkey
      rw [List.foldl_cons]
      have hstep : ∀ w' : World, (∀ e ∈ w'.heap, e.2.cid = e.1) →
          (heap_inventories
            (let nx := c.x + off.1
             let ny := c.y + off.2
             if w'.inBounds nx ny then
               match (w'.gridGet nx ny).bind w'.heapGet with
               | some neighbor =>
                   if ¬ neighbor.known_discoveries.contains d.id then
                     w'.heapSet { neighbor with
                       known_discoveries := neighbor.known_discoveries ++ [d.id] }
                   else w'
               | none => w'
             else w') = heap_inventories w' ∧
           ∀ e ∈ (let nx := c.x + off.1
             let ny := c.y + off.2
             if w'.inBounds nx ny then
               match (w'.gridGet nx ny).bind w'.heapGet with
               | some neighbor =>
                   if ¬ neighbor.known_discoveries.contains d.id then
                     w'.heapSet { neighbor with
                       known_discoveries := neighbor.known_discoveries ++ [d.id] }
                   else w'
               | none => w'
             else w').heap, e.2.cid = e.1) := by
        intro w' hk'
        dsimp only
        split
        · cases hb : (w'.gridGet (c.x + off.1) (c.y + off.2)).bind w'.heapGet with
          | none => exact ⟨rfl, hk'⟩
          | some neighbor =>
              dsimp only
              split
              · obtain ⟨cid, hcid, hng⟩ := Option.bind_eq_some.mp hb
                unfold World.heapGet at hng
                obtain ⟨e, hfind, he2⟩ := Option.map_eq_some'.mp hng
                have hpred := List.find?_some hfind
                have hcidkey : neighbor.cid = cid := by
                  rw [← he2, hk' e (List.mem_of_find?_eq_some hfind)]
                  exact eq_of_beq hpred
                constructor
                · show (heapPut w'.heap _).map (fun x => (x.1, x.2.inventory)) =
                    w'.heap.map (fun x => (x.1, x.2.inventory))
                  refine heapPut_inventories w'.heap _ e ?_ ?_
                  · show w'.heap.find? (fun x => x.1 == neighbor.cid) = some e
                    simp only [hcidkey]
                    exact hfind
                  · rw [he2]
                · show ∀ e' ∈ heapPut w'.heap _, e'.2.cid = e'.1
                  exact heapPut_keyed w'.heap _ hk'
              · exact ⟨rfl, hk'⟩
        · exact ⟨rfl, hk'⟩
      obtain ⟨hinv1, hkey1⟩ := hstep w hkey
      obtain ⟨hinv2, hkey2⟩ := ih _ hkey1
      exact ⟨hinv2.trans hinv1, hkey2⟩

/-- C6.  Sharing a discovery never places any object into any inventory: the
source's sample-object branch is dead (`hasattr(discovery, "result")` is
always false since nothing ever sets a `result` attribute on a `Discovery`).
Every heap inventory is unchanged, while in the concrete scenario the
unaware neighbor does receive the discovery id. -/
theorem claim_C6 :
    (∀ (width height : Nat) (grid : List (Option Nat)) (cells : List Celula)
       (c : Celula) (d : Discovery),
       heap_inventories
           (share_discovery_with_neighbors (worldOfCells width height grid cells) c d) =
         heap_inventories (worldOfCells width height grid cells)) ∧
    ((share_discovery_with_neighbors c6_world c6_a c6_discovery).heapGet 21).map
        (fun cl => (cl.known_discoveries, cl.inventory)) = some (["DISC_0001"], []) := by
  constructor
  · intro width height grid cells c d
    have hkey : ∀ e ∈ (worldOfCells width height grid cells).heap, e.2.cid = e.1 := by
      intro e he
      simp only [worldOfCells, List.mem_map] at he
      obtain ⟨cl, _, rfl⟩ := he
      rfl
    exact (share_aux c d mooreOffsets _ hkey).1
  · decide

/-- C5 counterexample: a pool of two brains with equal raw fitness 2 (both
survived 1 tick, `0 ** 1.5 = 0` exactly).  `_calculate_fitness` leaves both
at 2 — outside `[0, 1]` and not `0.5` — because
`len(set(fitnesses)) > 1` fails and no normalization runs at all. -/
theorem claim_C5_counterexample :
    (calculate_fitness pow15_cast [c5_brain, c5_brain]).map (fun b => b.fitness) = [2, 2] ∧
    ¬ ((2 : ℚ) ≤ 1) ∧ (2 : ℚ) ≠ mkRat 1 2 := by
  decide

theorem calculate_fitness_raw_map (pow15 : Nat → ℚ) (brains : List CellBrain) :
    (brains.map (fun b => { b with fitness := calculate_raw_fitness pow15 b })).map
        (fun b => b.fitness) =
      brains.map (fun b => calculate_raw_fitness pow15 b) := by
  rw [List.map_map]
  rfl

/-- C5 amended: when the pool holds at least two distinct raw fitness
values, min-max normalization puts every fitness into `[0, 1]`; when all raw
values are equal (including a single-brain pool), the fitness values are
simply the raw scores — not 0.5 — and may lie outside `[0, 1]`. -/
theorem claim_C5_amended (pow15 : Nat → ℚ) (brains : List CellBrain) :
    (1 < ((brains.map (fun b => calculate_raw_fitness pow15 b)).dedup).length →
       ∀ b ∈ calculate_fitness pow15 brains, 0 ≤ b.fitness ∧ b.fitness ≤ 1) ∧
    (((brains.map (fun b => calculate_raw_fitness pow15 b)).dedup).length ≤ 1 →
       calculate_fitness pow15 brains =
         brains.map (fun b => { b with fitness := calculate_raw_fitness pow15 b })) := by
  constructor
  · intro hded b hb
    cases hbr : brains with
    | nil =>
        subst hbr
        simp at hded
    | cons b0 bs =>
        have hne : brains.isEmpty = false := by rw [hbr]; rfl
        unfold calculate_fitness at hb
        rw [hne] at hb
        simp only [Bool.false_eq_true, if_false, calculate_fitness_raw_map] at hb
        rw [if_pos hded] at hb
        obtain ⟨b', hb', rfl⟩ := List.mem_map.mp hb
        obtain ⟨b'', hb'', rfl⟩ := List.mem_map.mp hb'
        dsimp only
        have hmemf : calculate_raw_fitness pow15 b'' ∈
            brains.map (fun b => calculate_raw_fitness pow15 b) :=
          List.mem_map_of_mem _ hb''
        have hmin := pyMin_le _ _ hmemf
        have hmax := le_pyMax _ _ hmemf
        by_cases hlt : pyMin (brains.map (fun b => calculate_raw_fitness pow15 b)) <
            pyMax (brains.map (fun b => calculate_raw_fitness pow15 b))
        · rw [if_pos hlt, qDiv_eq, qSub_eq, qSub_eq]
          have hpos : (0 : ℚ) < pyMax (brains.map (fun b => calculate_raw_fitness pow15 b)) -
              pyMin (brains.map (fun b => calculate_raw_fitness pow15 b)) := sub_pos.mpr hlt
          constructor
          · exact div_nonneg (sub_nonneg.mpr hmin) hpos.le
          · rw [div_le_one hpos]
            exact sub_le_sub_right hmax _
        · rw [if_neg hlt]
          constructor <;> · rw [Rat.mkRat_eq_div]; norm_num
  · intro hded
    unfold calculate_fitness
    cases hbr : brains.isEmpty with
    | true =>
        rw [List.isEmpty_iff] at hbr
        subst hbr
        rfl
    | false =>
        simp only [Bool.false_eq_true, if_false, calculate_fitness_raw_map]
        rw [if_neg (by omega)]

/-- C5 witness: a two-brain pool with distinct raw scores is normalized into
`[0, 1]`; the all-equal pool keeps its raw scores. -/
theorem claim_C5_witness :
    (0 ≤ ((calculate_fitness pow15_cast [c5_brain, c5_brain2]).headD dummy_brain).fitness ∧
       ((calculate_fitness pow15_cast [c5_brain, c5_brain2]).headD dummy_brain).fitness ≤ 1) ∧
    calculate_fitness pow15_cast [c5_brain, c5_brain] =
      [c5_brain, c5_brain].map
        (fun b => { b with fitness := calculate_raw_fitness pow15_cast b }) :=
  ⟨(claim_C5_amended pow15_cast [c5_brain, c5_brain2]).1 (by decide) _ (by decide),
   (claim_C5_amended pow15_cast [c5_brain, c5_brain]).2 (by decide)⟩

/-- Inserting into a list lengthens it by one. -/
theorem insSorted_length (le : α → α → Bool) (a : α) (l : List α) :
    (insSorted le a l).length = l.length + 1 := by
  induction l with
  | nil => rfl
  | cons b bs ih =>
      unfold insSorted
      split
      · rfl
      · simp only [List.length_cons, ih]

/-- The stable sort preserves length. -/
theorem pySorted_length (le : α → α → Bool) (l : List α) :
    (pySorted le l).length = l.length := by
  induction l with
  | nil => rfl
  | cons x xs ih =>
      unfold pySorted
      rw [insSorted_length, ih, List.length_cons]

/-- `_calculate_fitness` preserves the population size. -/
theorem calculate_fitness_length (pow15 : Nat → ℚ) (brains : List CellBrain) :
    (calculate_fitness pow15 brains).length = brains.length := by
  unfold calculate_fitness
  split
  · rfl
  · dsimp only
    split <;> simp

/-- `_select_elite` reads only the elite percentage of the engine state. -/
theorem select_elite_ep_congr (e1 e2 : EvolutionEngineState) (brains : List CellBrain)
    (h : e1.elite_percentage = e2.elite_percentage) :
    select_elite e1 brains = select_elite e2 brains := by
  unfold select_elite
  rw [h]

/-- `_record_generation_stats` never changes the elite percentage. -/
theorem record_generation_stats_ep (eng : EvolutionEngineState) (brains : List CellBrain) :
    (record_generation_stats eng brains).elite_percentage = eng.elite_percentage := by
  unfold record_generation_stats
  split <;> rfl

/-- On a non-empty pool with elite percentage in `[0, 1]` the elite size is
`max 1 (int(len * elite_percentage))` — `int` truncating toward zero. -/
theorem select_elite_length (eng : EvolutionEngineState) (brains : List CellBrain)
    (hne : brains ≠ []) (hep0 : 0 ≤ eng.elite_percentage) (hep1 : eng.elite_percentage ≤ 1) :
    (select_elite eng brains).length =
      (max 1 (pyInt ((brains.length : ℚ) * eng.elite_percentage))).toNat := by
  unfold select_elite
  dsimp only
  rw [List.length_take, pySorted_length, qMul_eq]
  have hq : (0 : ℚ) ≤ (brains.length : ℚ) * eng.elite_percentage :=
    mul_nonneg (Nat.cast_nonneg _) hep0
  have hfloor : pyInt ((brains.length : ℚ) * eng.elite_percentage) ≤ (brains.length : ℤ) := by
    unfold pyInt
    rw [if_pos hq]
    calc ⌊(brains.length : ℚ) * eng.elite_percentage⌋
        ≤ ⌊((brains.length : ℕ) : ℚ)⌋ :=
          Int.floor_le_floor (mul_le_of_le_one_right (Nat.cast_nonneg _) hep1)
      _ = (brains.length : ℤ) := Int.floor_natCast _
  have hone : (1 : ℤ) ≤ (brains.length : ℤ) := by
    have : 0 < brains.length := List.length_pos.mpr hne
    omega
  have hle : (max 1 (pyInt ((brains.length : ℚ) * eng.elite_percentage))).toNat ≤
      brains.length := Int.toNat_le.mpr (max_le hone hfloor)
  exact Nat.min_eq_left hle

/-- The offspring loop only appends to the accumulated offspring list: any
index already present is left untouched. -/
theorem generate_offspring_loop_getElem (eng : EvolutionEngineState) (steps : Nat → OffStep)
    (tp i : Nat) :
    ∀ (fuel k : Nat) (elite offspring : List CellBrain), i < offspring.length →
      (generate_offspring_loop eng steps tp fuel k elite offspring)[i]? = offspring[i]? := by
  intro fuel
  induction fuel with
  | zero => intro k elite offspring _; rfl
  | succ n ih =>
      intro k elite offspring hi
      rw [generate_offspring_loop]
      split
      · dsimp only
        split
        · refine (ih (k + 1) _ _ ?_).trans ?_
          · simp only [List.length_append, List.length_cons, List.length_nil]
            omega
          · rw [List.getElem?_append, if_pos hi]
        · refine (ih (k + 1) _ _ ?_).trans ?_
          · simp only [List.length_append, List.length_cons, List.length_nil]
            omega
          · rw [List.getElem?_append, if_pos hi]
      · rfl

/-- Within the elite-count prefix (and the target size), `_generate_offspring`
returns the verbatim elite copies, in order. -/
theorem generate_offspring_getElem (eng : EvolutionEngineState) (steps : Nat → OffStep)
    (elite : List CellBrain) (target k : Nat) (hk : k < min elite.length target) :
    (generate_offspring eng steps elite target)[k]? =
      (elite[k]?).map (fun b => CellBrain.ofNetwork b.network.copy) := by
  have hkt : k < target := lt_of_lt_of_le hk (min_le_right _ _)
  have hke : k < elite.length := lt_of_lt_of_le hk (min_le_left _ _)
  unfold generate_offspring
  dsimp only
  rw [List.getElem?_take, if_pos hkt]
  rw [generate_offspring_loop_getElem eng steps target k target 0 elite _
        (by simpa using hke)]
  exact List.getElem?_map _ _ _

/-- C4: on a pool of six brains with the default elite percentage `0.2` the
code keeps a single elite brain, although `ceil(6 * 0.2) = 2`: the elite
count is computed with Python `int()` (truncation), not a ceiling. -/
theorem claim_C4_counterexample :
    (select_elite {} (calculate_fitness pow15_cast c4_pool)).length = 1 ∧
    ⌈(c4_pool.length : ℚ) * ({} : EvolutionEngineState).elite_percentage⌉ = 2 := by
  constructor
  · decide
  · show ⌈(6 : ℚ) * mkRat 1 5⌉ = 2
    rw [show (6 : ℚ) * mkRat 1 5 = 6 / 5 by rw [Rat.mkRat_eq_div]; norm_num]
    rw [Int.ceil_eq_iff]
    constructor <;> norm_num

/-- C4 (amended): for every non-empty dead-brain pool and elite percentage in
`[0, 1]`, `evolve_population` selects `max(1, int(poolSize * elitePercentage))`
elite brains — truncation toward zero, not a ceiling — and at every index `k`
below both the elite count and the target size the returned population carries
a verbatim unmodified copy of the `k`-th elite brain's network. -/
theorem claim_C4_amended (eng : EvolutionEngineState) (pow15 : Nat → ℚ) (orc : EvoPopOracle)
    (pool : List CellBrain) (target k : Nat)
    (hne : pool ≠ [])
    (hep0 : 0 ≤ eng.elite_percentage) (hep1 : eng.elite_percentage ≤ 1)
    (hk : k < min (select_elite eng (calculate_fitness pow15 pool)).length target) :
    (select_elite eng (calculate_fitness pow15 pool)).length =
      (max 1 (pyInt ((pool.length : ℚ) * eng.elite_percentage))).toNat ∧
    ((evolve_population eng pow15 orc pool target).2[k]?).map (fun b => b.network) =
      ((select_elite eng (calculate_fitness pow15 pool))[k]?).map (fun b => b.network) := by
  have hfe : calculate_fitness pow15 pool ≠ [] := by
    intro h
    have := calculate_fitness_length pow15 pool
    rw [h] at this
    exact hne (List.length_eq_zero.mp this.symm)
  constructor
  · rw [select_elite_length eng _ hfe hep0 hep1, calculate_fitness_length]
  · have hpe : ¬ pool.isEmpty = true := by
      simpa using hne
    unfold evolve_population
    rw [if_neg hpe]
    dsimp only
    rw [select_elite_ep_congr (record_generation_stats eng (calculate_fitness pow15 pool)) eng
          (calculate_fitness pow15 pool) (record_generation_stats_ep eng _)]
    rw [generate_offspring_getElem _ _ _ _ _ hk]
    cases (select_elite eng (calculate_fitness pow15 pool))[k]? <;> rfl

/-- C4 (amended) at a concrete input: the six-brain pool with default engine
settings and target size 4; index 0 of the new population is the elite
brain's network. -/
theorem claim_C4_witness :
    c4_pool ≠ [] ∧
    (0 : ℚ) ≤ ({} : EvolutionEngineState).elite_percentage ∧
    ({} : EvolutionEngineState).elite_percentage ≤ 1 ∧
    0 < min (select_elite {} (calculate_fitness pow15_cast c4_pool)).length 4 ∧
    ((select_elite {} (calculate_fitness pow15_cast c4_pool)).length =
      (max 1 (pyInt ((c4_pool.length : ℚ) * ({} : EvolutionEngineState).elite_percentage))).toNat ∧
    ((evolve_population {} pow15_cast {} c4_pool 4).2[0]?).map (fun b => b.network) =
      ((select_elite {} (calculate_fitness pow15_cast c4_pool))[0]?).map (fun b => b.network)) :=
  ⟨by decide, by decide, by decide, by decide,
   claim_C4_amended {} pow15_cast {} c4_pool 4 0 (by decide) (by decide) (by decide) (by decide)⟩

/-- `calculate_significance` stores exactly the base formula, and the stored
result still evaluates to that same formula. -/
theorem calculate_significance_eq (r : CombinationResult) :
    r.calculate_significance =
      ({ r with significance_score := significance_formula r }, significance_formula r) := rfl

/-- C3: counterexample.  The tool-creation handler itself adds the claimed
`+15` bonus to its result (first conjunct), and the base formula of that
result is `10·1 + 5·1 = 15`, so the claim predicts a final significance of
`30`; but the `interact` call returns a successful spear-creation result
whose significance is `15`: `calculate_significance` recomputes the score
from scratch and overwrites the handler's bonus. -/
theorem claim_C3_counterexample :
    (apply_rule_handler HandlerKind.tool_creation { p1 := 0 } c3_rock c3_stick none
        ({} : CombinationResult)).2.2.significance_score = 15 ∧
    significance_formula
        (apply_rule_handler HandlerKind.tool_creation { p1 := 0 } c3_rock c3_stick none
          ({} : CombinationResult)).2.2 = 15 ∧
    ((interact {} { handler := { p1 := 0 } } c3_rock c3_stick "pressure" none).1.toOption.map
        (fun out => (out.1.success, out.1.significance_score,
          out.1.new_objects.map (fun o => o.name), out.1.destroyed_objects.length))) =
      some (true, 15, ["Lanza Primitiva"], 1) ∧
    (15 : ℚ) ≠ 15 + 15 := by
  refine ⟨by decide, by decide, by decide, by norm_num⟩

/-- C3 (amended): whenever the action kind parses and at least one rule is
applicable, `interact` returns a result — on the success path as on the
failure path — whose significance score is exactly the base formula
`10·(#new) + 2·(#state properties of modified) + 5·(#destroyed)` of that
result; handler-added bonuses are overwritten by the final
`calculate_significance` call and never reach the caller. -/
theorem claim_C3_amended (st : EngineState) (orc : InteractOracle)
    (actor target : UniverseObject) (action : String) (tool : Option UniverseObject)
    (it : InteractionType) (hit : parse_interaction_type action = some it)
    (hap : (find_applicable_rules st.rules actor target it tool).isEmpty = false) :
    (interact st orc actor target action tool).1.isOk = true ∧
    ((interact st orc actor target action tool).1.toOption.map
        (fun out => out.1.significance_score)) =
      ((interact st orc actor target action tool).1.toOption.map
        (fun out => significance_formula out.1)) := by
  unfold interact
  rw [hit]
  dsimp only
  have hap' : ¬ ((find_applicable_rules (log_interaction st actor target it tool).rules
      actor target it tool).isEmpty = true) := by
    show ¬ ((find_applicable_rules st.rules actor target it tool).isEmpty = true)
    simp [hap]
  rw [if_neg hap']
  exact ⟨rfl, rfl⟩

/-- C3 (amended) at a concrete input: the spear-creation scenario. -/
theorem claim_C3_witness :
    parse_interaction_type "pressure" = some InteractionType.pressure ∧
    (find_applicable_rules ({} : EngineState).rules c3_rock c3_stick
        InteractionType.pressure none).isEmpty = false ∧
    ((interact {} { handler := { p1 := 0 } } c3_rock c3_stick "pressure" none).1.isOk = true ∧
     ((interact {} { handler := { p1 := 0 } } c3_rock c3_stick "pressure" none).1.toOption.map
        (fun out => out.1.significance_score)) =
      ((interact {} { handler := { p1 := 0 } } c3_rock c3_stick "pressure" none).1.toOption.map
        (fun out => significance_formula out.1))) :=
  ⟨by decide, by decide,
   claim_C3_amended {} { handler := { p1 := 0 } } c3_rock c3_stick "pressure" none
     InteractionType.pressure (by decide) (by decide)⟩

/-- `mark_reproducible` flips the first name-matching discovery and nothing
else. -/
theorem mark_reproducible_eq (l1 : List Discovery) (d : Discovery) (l2 : List Discovery)
    (n : String) (hl1 : ∀ d' ∈ l1, (d'.name == n) = false) (hd : (d.name == n) = true) :
    mark_reproducible (l1 ++ d :: l2) n = l1 ++ { d with reproducible := true } :: l2 := by
  induction l1 with
  | nil =>
      simp only [List.nil_append]
      unfold mark_reproducible
      rw [if_pos hd]
  | cons a as ih =>
      simp only [List.cons_append]
      unfold mark_reproducible
      rw [if_neg (by simp [hl1 a (List.mem_cons_self a as)])]
      rw [ih (fun d' hm => hl1 d' (List.mem_cons_of_mem a hm))]

/-- Looking up the key just stored by `assocSet` returns the stored value. -/
theorem assocFind_assocSet (l : List (String × α)) (k : String) (v : α) :
    assocFind (assocSet l k v) k = some v := by
  induction l with
  | nil => simp [assocSet, assocFind]
  | cons e rest ih =>
      obtain ⟨k', v'⟩ := e
      unfold assocSet
      by_cases h : (k' == k) = true
      · rw [if_pos h]
        simp [assocFind]
      · rw [if_neg h]
        unfold assocFind at ih ⊢
        rw [List.find?_cons]
        simp only [Bool.not_eq_true] at h
        simp only [h]
        exact ih

/-- `_update_knowledge_base` never changes a discovery's name or
reproducibility, and retypes it `breakthrough` exactly when its significance
exceeds twice the detector threshold. -/
theorem update_knowledge_base_proj (st : DetectorState) (d : Discovery) :
    (update_knowledge_base st d).name = d.name ∧
    (update_knowledge_base st d).reproducible = d.reproducible ∧
    (update_knowledge_base st d).discovery_type =
      (if qMul st.significance_threshold 2 < d.significance then DiscoveryType.breakthrough
       else d.discovery_type) := by
  unfold update_knowledge_base
  dsimp only
  by_cases hc : 0 < st.interaction_chains.length
  · rw [if_pos hc]
    dsimp only
    by_cases hbr : qMul st.significance_threshold 2 < d.significance
    · rw [if_pos hbr, if_pos hbr]
      exact ⟨rfl, rfl, rfl⟩
    · rw [if_neg hbr, if_neg hbr]
      exact ⟨rfl, rfl, rfl⟩
  · rw [if_neg hc]
    by_cases hbr : qMul st.significance_threshold 2 < d.significance
    · rw [if_pos hbr, if_pos hbr]
      exact ⟨rfl, rfl, rfl⟩
    · rw [if_neg hbr, if_neg hbr]
      exact ⟨rfl, rfl, rfl⟩

/-- When a key is absent, an appended binding for it is the one found. -/
theorem assocFind_append_right (l : List (String × α)) (k : String) (v : α)
    (h : assocFind l k = none) : assocFind (l ++ [(k, v)]) k = some v := by
  induction l with
  | nil => simp [assocFind]
  | cons e rest ih =>
      obtain ⟨k', v'⟩ := e
      unfold assocFind at h ih ⊢
      rw [List.cons_append]
      rw [List.find?_cons] at h ⊢
      by_cases hk : (k' == k) = true
      · dsimp only at h
        simp only [hk] at h
        simp at h
      · rw [Bool.not_eq_true] at hk
        dsimp only at h ⊢
        simp only [hk] at h ⊢
        exact ih h

/-- C7: counterexample.  Two distinct signatures, `X::es_duro` and
`X::brilla`, share the object name `X`.  Each signature's first occurrence
emitted exactly one discovery of the classified type (`tool_creation` for
the hard object, `new_object` for the glowing one).  But after the
signature `X::brilla` has been created three times its own
first-occurrence discovery (`DISC_0002`, properties `brilla`) is still not
reproducible; instead the detector marked `DISC_0001` — the discovery of
the once-created signature `X::es_duro` — because the marking loop matches
on the discovery name `Discovery of X`, not on the signature. -/
theorem claim_C7_counterexample :
    get_object_signature c7_objA ≠ get_object_signature c7_objB ∧
    (assocFind c7_st4.object_patterns (get_object_signature c7_objB)).map
        (fun i => i.times_created) = some 3 ∧
    (assocFind c7_st4.object_patterns (get_object_signature c7_objA)).map
        (fun i => i.times_created) = some 1 ∧
    c7_st4.discoveries.map
        (fun d => (d.id, d.discovery_type, d.properties_involved, d.reproducible)) =
      [("DISC_0001", DiscoveryType.tool_creation, ["es_duro"], true),
       ("DISC_0002", DiscoveryType.new_object, ["brilla"], false)] := by
  refine ⟨by decide, by decide, by decide, by decide⟩

/-- C7 (amended), for results creating a single new object (no handler ever
creates more than one).  First half: on the signature's first occurrence the
detector emits exactly one discovery — typed by the classification
(`tool_creation` for a pointed/cutting/hard object, `compound_creation`
above 3 properties, else `new_object`, retyped `breakthrough` only when the
significance exceeds twice the threshold), named `Discovery of
<objectName>`, not reproducible — files exactly that record, and registers
the signature with creation counter 1.  Second half: when the created
object's signature was already seen twice and the object is not itself a
functional tool, no discovery is emitted, the counter reaches 3, and the
detector marks reproducible the *first discovery in the log whose name is*
`Discovery of <objectName>`: the marking is keyed by the created object's
name, not by the signature whose counter reached 3. -/
theorem claim_C7_amended :
    (∀ (st : DetectorState) (r : CombinationResult) (tick : Nat) (did : Option String)
       (obj : UniverseObject),
       r.new_objects = [obj] →
       r.success = true →
       st.significance_threshold ≤ r.significance_score →
       assocFind st.object_patterns (get_object_signature obj) = none →
       ((analyze_interaction_result st r tick did).2).map (fun d => d.discovery_type) =
         some (if qMul st.significance_threshold 2 < r.significance_score then
           DiscoveryType.breakthrough else classify_object_discovery obj) ∧
       ((analyze_interaction_result st r tick did).2).map (fun d => d.name) =
         some ("Discovery of " ++ obj.name) ∧
       ((analyze_interaction_result st r tick did).2).map (fun d => d.reproducible) =
         some false ∧
       ((analyze_interaction_result st r tick did).2).map (fun d => st.discoveries ++ [d]) =
         some ((analyze_interaction_result st r tick did).1.discoveries) ∧
       (assocFind (analyze_interaction_result st r tick did).1.object_patterns
           (get_object_signature obj)).map (fun i => i.times_created) = some 1) ∧
    (∀ (st : DetectorState) (r : CombinationResult) (tick : Nat) (did : Option String)
       (obj : UniverseObject) (info : PatternInfo) (l1 l2 : List Discovery) (d : Discovery),
       r.new_objects = [obj] →
       r.success = true →
       st.significance_threshold ≤ r.significance_score →
       assocFind st.object_patterns (get_object_signature obj) = some info →
       info.times_created = 2 →
       is_functional_tool obj = false →
       st.discoveries = l1 ++ d :: l2 →
       (d.name == "Discovery of " ++ obj.name) = true →
       (∀ d' ∈ l1, (d'.name == "Discovery of " ++ obj.name) = false) →
       (analyze_interaction_result st r tick did).2 = none ∧
       (analyze_interaction_result st r tick did).1.discoveries =
         l1 ++ { d with reproducible := true } :: l2 ∧
       (assocFind (analyze_interaction_result st r tick did).1.object_patterns
           (get_object_signature obj)).map (fun i => i.times_created) = some 3) := by
  constructor
  · intro st r tick did obj hobj hsuc hth hsig
    have hgate : ¬ (¬ r.success = true ∨ r.significance_score < st.significance_threshold) :=
      not_or.mpr ⟨by simp [hsuc], not_lt.mpr hth⟩
    unfold analyze_interaction_result
    rw [if_neg hgate]
    dsimp only
    rw [if_pos (by simp [hobj])]
    unfold detect_new_object_discovery
    rw [hobj]
    rw [detect_new_object_discovery_aux]
    rw [hsig]
    dsimp only
    refine ⟨?_, ?_, ?_, ?_, ?_⟩
    · simp only [Option.map_some']
      rw [(update_knowledge_base_proj _ _).2.2]
    · simp only [Option.map_some']
      rw [(update_knowledge_base_proj _ _).1]
    · simp only [Option.map_some']
      rw [(update_knowledge_base_proj _ _).2.1]
    · simp only [Option.map_some']
    · rw [assocFind_append_right _ _ _ hsig]
      simp only [Option.map_some']
  · intro st r tick did obj info l1 l2 d hobj hsuc hth hsig hcount htool hdisc hd hl1
    have hgate : ¬ (¬ r.success = true ∨ r.significance_score < st.significance_threshold) :=
      not_or.mpr ⟨by simp [hsuc], not_lt.mpr hth⟩
    unfold analyze_interaction_result
    rw [if_neg hgate]
    dsimp only
    rw [if_pos (by simp [hobj])]
    unfold detect_new_object_discovery
    rw [hobj]
    rw [detect_new_object_discovery_aux]
    rw [hsig]
    dsimp only
    rw [apply_ite PatternInfo.times_created]
    dsimp only
    rw [ite_self, hcount]
    rw [if_pos (by norm_num)]
    rw [hdisc]
    rw [mark_reproducible_eq l1 d l2 _ hl1 hd]
    rw [detect_new_object_discovery_aux]
    dsimp only
    rw [if_neg (by simp [is_tool_creation, hobj, htool])]
    refine ⟨rfl, rfl, ?_⟩
    rw [assocFind_assocSet]
    simp only [Option.map_some']
    rw [apply_ite PatternInfo.times_created]
    dsimp only
    rw [ite_self]

/-- C7 (amended) at concrete inputs.  First occurrence: from a fresh
detector, the hard object `c7_objA` yields one filed `tool_creation`
discovery and counter 1.  Third occurrence: the minimal detector state with
a pre-existing discovery named `Discovery of X` and the signature
`X::brilla` seen twice; a third `X::brilla` creation marks that
discovery. -/
theorem claim_C7_witness :
    assocFind ({} : DetectorState).object_patterns (get_object_signature c7_objA) = none ∧
    assocFind c7_min_st.object_patterns (get_object_signature c7_objB) =
      some { first_seen := 0, times_created := 2, creation_methods := [""] } ∧
    (c7_d1.name == "Discovery of " ++ c7_objB.name) = true ∧
    (((analyze_interaction_result {} c7_r1 0 none).2).map (fun d => d.discovery_type) =
       some (if qMul ({} : DetectorState).significance_threshold 2 < c7_r1.significance_score
         then DiscoveryType.breakthrough else classify_object_discovery c7_objA) ∧
     ((analyze_interaction_result {} c7_r1 0 none).2).map (fun d => d.name) =
       some ("Discovery of " ++ c7_objA.name) ∧
     ((analyze_interaction_result {} c7_r1 0 none).2).map (fun d => d.reproducible) =
       some false ∧
     ((analyze_interaction_result {} c7_r1 0 none).2).map
         (fun d => ({} : DetectorState).discoveries ++ [d]) =
       some ((analyze_interaction_result {} c7_r1 0 none).1.discoveries) ∧
     (assocFind (analyze_interaction_result {} c7_r1 0 none).1.object_patterns
         (get_object_signature c7_objA)).map (fun i => i.times_created) = some 1) ∧
    ((analyze_interaction_result c7_min_st c7_r2 1 none).2 = none ∧
     (analyze_interaction_result c7_min_st c7_r2 1 none).1.discoveries =
       [] ++ { c7_d1 with reproducible := true } :: [] ∧
     (assocFind (analyze_interaction_result c7_min_st c7_r2 1 none).1.object_patterns
        (get_object_signature c7_objB)).map (fun i => i.times_created) = some 3) :=
  ⟨by decide, by decide, by decide,
   claim_C7_amended.1 {} c7_r1 0 none c7_objA (by decide) (by decide) (by decide) (by decide),
   claim_C7_amended.2 c7_min_st c7_r2 1 none c7_objB
     { first_seen := 0, times_created := 2, creation_methods := [""] } [] [] c7_d1
     (by decide) (by decide) (by decide) (by decide) (by decide) (by decide)
     (by decide) (by decide) (by decide)⟩

/-- C1: the claimed skip never happens for consumed prey, because only
organisms that die during their own update enter `cells_to_remove`.  In the
3-by-1 scenario the carnivore (identity 1) is processed first: it eats the
herbivore (identity 2), wiping it from the grid — yet `cells_to_remove`
stays empty and the herbivore's stored state is untouched (first half).
When the shuffled order then reaches the herbivore, it is processed again
that same tick: it ages to 1, pays upkeep (energy 19), moves to `(2, 0)`
and re-inserts itself into the grid, and its vacating write
`grid[self.y][self.x] = None` erases the carnivore — which ends the tick
alive (energy 43) but standing on no grid cell (second half). -/
theorem claim_C1 :
    ((process_cells c1_orcs [1] { w := { c1_world with tick := 1 } }).w.grid =
        [none, some 1, none] ∧
     (process_cells c1_orcs [1] { w := { c1_world with tick := 1 } }).cells_to_remove = [] ∧
     ((process_cells c1_orcs [1] { w := { c1_world with tick := 1 } }).w.heapGet 2).map
        (fun c => (c.age, c.energy)) = some (0, 20)) ∧
    ((world_update c1_world id c1_orcs {}).grid = [none, none, some 2] ∧
     ((world_update c1_world id c1_orcs {}).heapGet 2).map
        (fun c => (c.age, c.energy, c.x)) = some (1, 19, 2) ∧
     ((world_update c1_world id c1_orcs {}).heapGet 1).map
        (fun c => (c.energy, c.x)) = some (43, 1)) := by
  refine ⟨⟨by decide, by decide, by decide⟩, ⟨by decide, by decide, by decide⟩⟩

end Cosmic
